import Mathlib

/-!
Shallow embedding of the UK Capital Recommender System (Python) in Lean 4.

Modules embedded:
* `config.py`            — constants and reference tables
* `agents/business_analyzer.py`      — `BusinessAnalyzer`
* `agents/funding_research.py`       — `FundingResearcher`
* `agents/recommendation_matcher.py` — `RecommendationMatcher`
* `main.py`              — `CapitalRecommenderOrchestrator`

Python floats are modelled as rationals (`ℚ`); all constants in the code are
exact decimals, so the arithmetic is the same.  Python dicts with a fixed key
set are modelled as structures; dict keys read with `.get` and a default are
modelled as `Option` fields read with `getD`.
-/

namespace CapRec

/-! ## config.py -/

/-- `CONFIG.MAX_RECOMMENDATIONS` -/
def MAX_RECOMMENDATIONS : Nat := 5

/-- `CONFIG.MIN_MATCH_SCORE` -/
def MIN_MATCH_SCORE : ℚ := 0.6

/-- `CONFIG.DIVERSITY_REQUIREMENT` -/
def DIVERSITY_REQUIREMENT : Nat := 2

/-- `SCORING_WEIGHTS` -/
def weight_compatibility : ℚ := 0.40
def weight_approval_probability : ℚ := 0.35
def weight_commercial_value : ℚ := 0.15
def weight_strategic_fit : ℚ := 0.10

/-- Entry of `UK_SECTORS` (sic codes are never read by the engine). -/
structure SectorInfo where
  risk_level : String
  growth_potential : String
deriving DecidableEq, Repr

/-- `UK_SECTORS` -/
def UK_SECTORS : List (String × SectorInfo) :=
  [ ("technology", ⟨"medium", "high"⟩)
  , ("manufacturing", ⟨"medium", "medium"⟩)
  , ("retail", ⟨"high", "medium"⟩)
  , ("professional_services", ⟨"low", "medium"⟩)
  , ("healthcare", ⟨"low", "high"⟩)
  , ("construction", ⟨"high", "medium"⟩)
  , ("finance", ⟨"medium", "medium"⟩)
  , ("education", ⟨"low", "low"⟩) ]

/-- Entry of `UK_REGIONS` (population is never read by the engine). -/
structure RegionInfo where
  business_density : String
  funding_availability : String
deriving DecidableEq, Repr

/-- `UK_REGIONS` -/
def UK_REGIONS : List (String × RegionInfo) :=
  [ ("london", ⟨"very_high", "excellent"⟩)
  , ("south_east", ⟨"high", "good"⟩)
  , ("north_west", ⟨"medium", "good"⟩)
  , ("scotland", ⟨"medium", "good"⟩)
  , ("yorkshire", ⟨"medium", "fair"⟩)
  , ("west_midlands", ⟨"medium", "fair"⟩)
  , ("wales", ⟨"low", "fair"⟩)
  , ("northern_ireland", ⟨"low", "limited"⟩) ]

/-- `dict.get k` on a string-keyed table. -/
def tableGet {α : Type} (tbl : List (String × α)) (k : String) : Option α :=
  (tbl.find? (fun e => e.1 == k)).map (·.2)

/-! ## Business profile (the typed object built by `BusinessProfile.__init__`,
as consumed by the three agent classes). -/

/-- `profile.financials` — optional entries of the financials mapping. -/
structure Financials where
  profit_margin : Option ℚ := none
  cash_flow_months : Option ℚ := none
  debt_to_equity : Option ℚ := none
deriving DecidableEq, Repr

/-- A constructed `BusinessProfile`. -/
structure BusinessProfile where
  company_name : String
  sector : String
  annual_revenue : ℚ
  employees : Int
  location : String
  business_age : ℚ
  funding_amount : ℚ
  funding_purpose : String := "expansion"
  timeline : String := "3_months"
  financials : Financials := {}
deriving DecidableEq, Repr

/-! ## agents/business_analyzer.py -/

/-- Python `min` on rationals. -/
def pymin (a b : ℚ) : ℚ := if a ≤ b then a else b

/-- Python `max` on rationals. -/
def pymax (a b : ℚ) : ℚ := if a ≤ b then b else a

/-- `BusinessAnalyzer._determine_company_size` -/
def determine_company_size (employees : Int) (revenue : ℚ) : String :=
  if employees ≤ 9 ∧ revenue ≤ 632000 then "micro"
  else if employees ≤ 49 ∧ revenue ≤ 10200000 then "small"
  else if employees ≤ 249 ∧ revenue ≤ 50000000 then "medium"
  else "large"

/-- `BusinessAnalyzer._calculate_creditworthiness` -/
def calculate_creditworthiness (profit_margin cash_flow revenue : ℚ) : ℚ :=
  let profit_score := pymin (profit_margin * 10) 1.0
  let cash_score := pymin (cash_flow / 6) 1.0
  let revenue_score := pymin (revenue / 1000000) 1.0
  profit_score * 0.4 + cash_score * 0.3 + revenue_score * 0.3

/-- `BusinessAnalyzer._calculate_repayment_capacity` -/
def calculate_repayment_capacity (revenue margin : ℚ) : ℚ :=
  let annual_profit := revenue * margin
  let monthly_capacity := annual_profit / 12
  pymin (monthly_capacity / 10000) 1.0

/-- `BusinessAnalyzer._estimate_asset_backing` -/
def estimate_asset_backing (_revenue : ℚ) (sector : String) : ℚ :=
  let base_ratio : ℚ := 0.3
  let base_ratio :=
    if sector = "manufacturing" ∨ sector = "construction" then base_ratio + 0.2
    else if sector = "technology" ∨ sector = "professional_services" then base_ratio - 0.1
    else base_ratio
  pymin base_ratio 1.0

/-- `BusinessAnalyzer._calculate_sector_attractiveness` -/
def calculate_sector_attractiveness (sector_info : Option SectorInfo) : ℚ :=
  let growth_potential := (sector_info.map (·.growth_potential)).getD "medium"
  let risk_level := (sector_info.map (·.risk_level)).getD "medium"
  let growth_score : ℚ :=
    if growth_potential = "high" then 0.8 else if growth_potential = "medium" then 0.6
    else if growth_potential = "low" then 0.4 else 0.5
  let risk_score : ℚ :=
    if risk_level = "low" then 0.8 else if risk_level = "medium" then 0.6
    else if risk_level = "high" then 0.3 else 0.5
  (growth_score + risk_score) / 2

/-- `BusinessAnalyzer._determine_business_stage` -/
def determine_business_stage (profile : BusinessProfile) : String :=
  let age := profile.business_age
  let revenue := profile.annual_revenue
  if age ≤ 2 ∧ revenue < 500000 then "startup"
  else if age ≤ 7 ∨ revenue < 2000000 then "growth"
  else "mature"

/-- `BusinessAnalyzer._assess_amount_justification` -/
def assess_amount_justification (profile : BusinessProfile) : String :=
  let funding_ratio := profile.funding_amount / pymax profile.annual_revenue 1
  if funding_ratio ≤ 0.5 then "conservative"
  else if funding_ratio ≤ 1.0 then "reasonable"
  else if funding_ratio ≤ 2.0 then "optimistic"
  else "excessive"

/-- `BusinessAnalyzer._assess_sector_risk` -/
def assess_sector_risk (sector : String) : String :=
  ((tableGet UK_SECTORS sector).map (·.risk_level)).getD "medium"

/-- `BusinessAnalyzer._assess_geographic_risk` -/
def assess_geographic_risk (location : String) : String :=
  let business_density :=
    ((tableGet UK_REGIONS location.toLower).map (·.business_density)).getD "medium"
  if business_density = "very_high" then "low"
  else if business_density = "high" then "low"
  else if business_density = "medium" then "medium"
  else if business_density = "low" then "high"
  else "medium"

/-- `BusinessAnalyzer._assess_financial_risk` -/
def assess_financial_risk (profile : BusinessProfile) : String :=
  let cash_flow := profile.financials.cash_flow_months.getD 2
  let profit_margin := profile.financials.profit_margin.getD 0.05
  let risk_factors : Nat :=
    (if cash_flow < 2 then 1 else 0) + (if profit_margin < 0.05 then 1 else 0)
  if risk_factors ≥ 2 then "high"
  else if risk_factors = 1 then "medium"
  else "low"

/-- `risk_scores` lookup used by `_calculate_overall_risk`; all callers pass
one of the three keys, so the (in Python, exception-raising) missing-key case
never occurs and is given an arbitrary total value. -/
def risk_score_of (level : String) : Nat :=
  if level = "low" then 1 else if level = "medium" then 2 else 3

/-- `BusinessAnalyzer._calculate_overall_risk` -/
def calculate_overall_risk (sector geographic financial : String) : String :=
  let total_score : ℚ :=
    (risk_score_of sector : ℚ) + (risk_score_of geographic : ℚ) +
      (risk_score_of financial : ℚ)
  let avg_score := total_score / 3
  if avg_score ≤ 1.5 then "low"
  else if avg_score ≤ 2.5 then "medium"
  else "high"

/-- Result of `BusinessAnalyzer._analyze_demographics` (fields read later). -/
structure DemographicAnalysis where
  sector : String
  sector_risk : String
  sector_attractiveness : ℚ
  location : String
  regional_advantage : String
  business_age : ℚ
  company_size : String
deriving DecidableEq, Repr

/-- `BusinessAnalyzer._analyze_demographics` -/
def analyze_demographics (profile : BusinessProfile) : DemographicAnalysis :=
  let sector_info := tableGet UK_SECTORS profile.sector
  let region_info := tableGet UK_REGIONS profile.location.toLower
  { sector := profile.sector
    sector_risk := ((sector_info.map (·.risk_level)).getD "medium")
    sector_attractiveness := calculate_sector_attractiveness sector_info
    location := profile.location
    regional_advantage := ((region_info.map (·.funding_availability)).getD "fair")
    business_age := profile.business_age
    company_size := determine_company_size profile.employees profile.annual_revenue }

/-- Result of `BusinessAnalyzer._analyze_financials`. -/
structure FinancialAnalysis where
  creditworthiness : ℚ
  repayment_capacity : ℚ
  asset_backing : ℚ
  profit_margin : ℚ
  cash_flow_months : ℚ
deriving DecidableEq, Repr

/-- `BusinessAnalyzer._analyze_financials` -/
def analyze_financials (profile : BusinessProfile) : FinancialAnalysis :=
  let profit_margin := profile.financials.profit_margin.getD 0.1
  let cash_flow_months := profile.financials.cash_flow_months.getD 2
  { creditworthiness :=
      calculate_creditworthiness profit_margin cash_flow_months profile.annual_revenue
    repayment_capacity := calculate_repayment_capacity profile.annual_revenue profit_margin
    asset_backing := estimate_asset_backing profile.annual_revenue profile.sector
    profit_margin := profit_margin
    cash_flow_months := cash_flow_months }

/-- Result of `BusinessAnalyzer._analyze_risk_profile`. -/
structure RiskAnalysis where
  sector_risk : String
  geographic_risk : String
  financial_risk : String
  overall_risk : String
deriving DecidableEq, Repr

/-- `BusinessAnalyzer._analyze_risk_profile` -/
def analyze_risk_profile (profile : BusinessProfile) : RiskAnalysis :=
  let sector_risk := assess_sector_risk profile.sector
  let geographic_risk := assess_geographic_risk profile.location
  let financial_risk := assess_financial_risk profile
  { sector_risk := sector_risk
    geographic_risk := geographic_risk
    financial_risk := financial_risk
    overall_risk := calculate_overall_risk sector_risk geographic_risk financial_risk }

/-- `BusinessAnalyzer._calculate_funding_readiness` -/
def calculate_funding_readiness (demographic : DemographicAnalysis)
    (financial : FinancialAnalysis) (risk : RiskAnalysis) : ℚ :=
  let financial_score := financial.creditworthiness
  let maturity_score := pymin (demographic.business_age / 10) 1.0
  let sector_score := demographic.sector_attractiveness
  let risk_score : ℚ :=
    if risk.overall_risk = "low" then 1.0
    else if risk.overall_risk = "medium" then 0.7 else 0.4
  let readiness :=
    financial_score * 0.4 + maturity_score * 0.25 + sector_score * 0.2 + risk_score * 0.15
  pymin (pymax readiness 0.0) 1.0

/-- `BusinessAnalyzer._generate_matching_tags` -/
def generate_matching_tags (profile : BusinessProfile)
    (demographic : DemographicAnalysis) : List String :=
  let tags := [ profile.sector ++ "_business"
              , demographic.company_size ++ "_enterprise"
              , profile.location.toLower ++ "_location" ]
  let tags := tags ++
    [ if profile.business_age ≤ 2 then "startup"
      else if profile.business_age ≤ 7 then "growth_stage"
      else "established" ]
  if profile.annual_revenue > 1000000 then tags ++ ["high_revenue"] else tags

/-- `BusinessAnalyzer._identify_red_flags` -/
def identify_red_flags (profile : BusinessProfile) : List String :=
  let red_flags : List String := []
  let funding_ratio := profile.funding_amount / pymax profile.annual_revenue 1
  let red_flags :=
    if funding_ratio > 2.0 then red_flags ++ ["excessive_funding_request"] else red_flags
  if profile.business_age < 1 then red_flags ++ ["very_new_business"] else red_flags

/-- Python `list(set(...))` — deduplicate (set order is unspecified in the
abstract; modelled as first-occurrence order). -/
def pyDedup (l : List String) : List String := l.dedup

/-- `BusinessAnalyzer._recommend_funding_types` -/
def recommend_funding_types (profile : BusinessProfile) (readiness : ℚ) : List String :=
  let recommendations : List String :=
    if readiness ≥ 0.8 then
      (if profile.funding_amount ≥ 250000 then ["venture_capital", "angel_investment"] else [])
        ++ ["bank_loan", "asset_finance"]
    else if readiness ≥ 0.6 then
      ["bank_loan", "asset_finance", "crowdfunding"]
        ++ (if profile.sector = "technology" then ["angel_investment"] else [])
    else
      ["asset_finance", "crowdfunding", "government_grant"]
  pyDedup recommendations

/-- Values stored in the `funding_indicators` dict (a string or a number). -/
inductive FIValue where
  | str (s : String)
  | num (q : ℚ)
deriving DecidableEq, Repr

/-- The business intelligence record returned by `analyze_business`.
`business_profile` keys are mirrored as fields, `funding_indicators` keeps
its open dict shape (an association list) because consumers read it with
`.get` and a default. -/
structure BusinessIntelligence where
  risk_level : String
  stage : String
  creditworthiness : ℚ
  growth_trajectory : String
  funding_readiness : ℚ
  sector_attractiveness : ℚ
  funding_indicators : List (String × FIValue)
  matching_tags : List String
  red_flags : List String
  recommended_funding_types : List String
deriving DecidableEq, Repr

/-- `intelligence["funding_indicators"].get(key, default)` for numeric reads. -/
def BusinessIntelligence.fiGetNum (i : BusinessIntelligence) (key : String)
    (default : ℚ) : ℚ :=
  match tableGet i.funding_indicators key with
  | some (FIValue.num q) => q
  | some (FIValue.str _) => default
  | none => default

/-- `intelligence["funding_indicators"][key]` for keys the analyzer always
writes as numbers. -/
def BusinessIntelligence.fiNum (i : BusinessIntelligence) (key : String) : ℚ :=
  i.fiGetNum key 0

/-- `BusinessAnalyzer.analyze_business`, normal (non-exception) path.  With a
well-typed profile none of the analysis steps can raise, so this is the total
behaviour of the method. -/
def analyze_business (profile : BusinessProfile) : BusinessIntelligence :=
  let demographic_analysis := analyze_demographics profile
  let financial_analysis := analyze_financials profile
  let risk_analysis := analyze_risk_profile profile
  let funding_readiness :=
    calculate_funding_readiness demographic_analysis financial_analysis risk_analysis
  let matching_tags := generate_matching_tags profile demographic_analysis
  { risk_level := risk_analysis.overall_risk
    stage := determine_business_stage profile
    creditworthiness := financial_analysis.creditworthiness
    growth_trajectory := if profile.business_age ≤ 3 then "accelerating" else "stable"
    funding_readiness := funding_readiness
    sector_attractiveness := demographic_analysis.sector_attractiveness
    funding_indicators :=
      [ ("amount_justification", FIValue.str (assess_amount_justification profile))
      , ("repayment_capacity", FIValue.num financial_analysis.repayment_capacity)
      , ("asset_backing", FIValue.num financial_analysis.asset_backing)
      , ("management_strength", FIValue.num 0.75) ]
    matching_tags := matching_tags
    red_flags := identify_red_flags profile
    recommended_funding_types := recommend_funding_types profile funding_readiness }

/-- `BusinessAnalyzer._create_fallback_analysis` -/
def create_fallback_analysis (profile : BusinessProfile) : BusinessIntelligence :=
  { risk_level := "medium"
    stage := "unknown"
    creditworthiness := 0.5
    growth_trajectory := "stable"
    funding_readiness := 0.4
    sector_attractiveness := 0.5
    funding_indicators :=
      [ ("amount_justification", FIValue.str "unknown")
      , ("repayment_capacity", FIValue.num 0.5)
      , ("asset_backing", FIValue.num 0.3)
      , ("management_strength", FIValue.num 0.5) ]
    matching_tags := [profile.sector, "fallback_analysis"]
    red_flags := ["incomplete_data"]
    recommended_funding_types := ["asset_finance", "crowdfunding"] }

/-! ## String helpers (Python `in`, `split`, `int()` on short strings),
implemented over the character list so that proofs can evaluate them. -/

/-- `pat in s` (substring containment) on character lists. -/
def listContainsSub (pat : List Char) : List Char → Bool
  | [] => pat.isEmpty
  | c :: cs => pat.isPrefixOf (c :: cs) || listContainsSub pat cs

/-- Python `pat in s` for strings. -/
def strContains (s pat : String) : Bool := listContainsSub pat.data s.data

/-- Split a character list at every character satisfying `p`, keeping empty
segments (the behaviour of Python `str.split(sep)` with an explicit `sep`). -/
def splitChars (p : Char → Bool) : List Char → List (List Char)
  | [] => [[]]
  | c :: cs =>
    let rest := splitChars p cs
    if p c then [] :: rest
    else
      match rest with
      | [] => [[c]]
      | h :: t => (c :: h) :: t

/-- Python `s.split("-")`. -/
def pySplitDash (s : String) : List String :=
  (splitChars (fun c => c = '-') s.data).map (fun l => ⟨l⟩)

/-- Python `s.split()` (split on whitespace, dropping empty fields). -/
def pySplitWs (s : String) : List String :=
  ((splitChars (fun c => c.isWhitespace) s.data).filter (fun l => ¬l.isEmpty)).map
    (fun l => ⟨l⟩)

/-- Python `s.split("_")[0]`. -/
def firstUnderscoreToken (s : String) : String :=
  ⟨(splitChars (fun c => c = '_') s.data).headD []⟩

/-- Decimal digits to a number, `none` unless the list is nonempty and all
digits. -/
def parseDigits (l : List Char) : Option Nat :=
  if l.isEmpty then none
  else if l.all (fun c => c.isDigit) then
    some (l.foldl (fun acc c => acc * 10 + (c.toNat - 48)) 0)
  else none

/-- Strip leading and trailing whitespace. -/
def trimChars (l : List Char) : List Char :=
  ((l.dropWhile (fun c => c.isWhitespace)).reverse.dropWhile
    (fun c => c.isWhitespace)).reverse

/-- Python `int(s)` for a string, `none` modelling a raised `ValueError`. -/
def parsePyInt (s : String) : Option Int :=
  match trimChars s.data with
  | '-' :: ds => (parseDigits ds).map (fun n => -(n : Int))
  | '+' :: ds => (parseDigits ds).map (fun n => (n : Int))
  | ds => (parseDigits ds).map (fun n => (n : Int))

/-! ## agents/funding_research.py -/

/-- A funding-source record (catalog entry, market-adjusted copy, or fallback
entry).  Keys read via `.get` with a default are `Option` fields or carry the
dict's default; keys absent from some dicts but only dereferenced on dicts
that have them (e.g. `category`, absent from the fallback entries, is only
read inside `_apply_market_conditions`, which fallback entries never reach)
are plain fields with `""`/`0` placeholders on those entries.  Fields never
read by any embedded computation (interest rates, success factors, equity
ranges, phone numbers, `last_updated`) are omitted. -/
structure FundingSource where
  source_id : String
  name : String
  type_ : String
  category : String := ""
  amount_min : ℚ
  amount_max : ℚ
  sectors : List String := []
  excluded_sectors : List String := []
  min_trading_years : Option ℚ := none
  max_trading_years : Option ℚ := none
  min_annual_revenue : Option ℚ := none
  max_debt_ratio : Option ℚ := none
  credit_score_min : Option ℚ := none
  geographic_requirement : List String := []
  innovation_requirement : Bool := false
  asset_requirement : Bool := false
  approval_timeline : String
  commission_min : ℚ
  commission_max : ℚ
  contact_email : Option String := none
  availability_status : String
  current_appetite : String
  market_appetite : Option String := none
  sector_market_status : Option String := none
  market_adjusted_timeline : Option String := none
deriving DecidableEq, Repr

/-- `FundingResearcher._initialize_funding_database` (the static catalog). -/
def funding_database : List FundingSource :=
  [ { source_id := "barclays_business_loan"
    , name := "Barclays Business Loan"
    , type_ := "bank_loan"
    , category := "traditional_banking"
    , amount_min := 5000, amount_max := 250000
    , sectors := ["all"]
    , excluded_sectors := ["adult_entertainment", "gambling", "weapons"]
    , min_trading_years := some 2
    , min_annual_revenue := some 50000
    , max_debt_ratio := some 2.5
    , approval_timeline := "2-4 weeks"
    , commission_min := 1.5, commission_max := 3.0
    , contact_email := some "business@barclays.co.uk"
    , availability_status := "accepting_applications"
    , current_appetite := "selective" }
  , { source_id := "lloyds_commercial_finance"
    , name := "Lloyds Commercial Finance"
    , type_ := "asset_finance"
    , category := "traditional_banking"
    , amount_min := 10000, amount_max := 2000000
    , sectors := ["manufacturing", "construction", "transport", "technology"]
    , excluded_sectors := ["retail", "hospitality"]
    , min_trading_years := some 1
    , min_annual_revenue := some 100000
    , asset_requirement := true
    , approval_timeline := "1-3 weeks"
    , commission_min := 2.0, commission_max := 5.0
    , contact_email := some "commercial@lloydsbank.com"
    , availability_status := "accepting_applications"
    , current_appetite := "aggressive" }
  , { source_id := "funding_circle"
    , name := "Funding Circle Business Loans"
    , type_ := "bank_loan"
    , category := "alternative_lending"
    , amount_min := 10000, amount_max := 500000
    , sectors := ["all"]
    , excluded_sectors := ["gambling", "adult_entertainment", "cryptocurrency"]
    , min_trading_years := some 2
    , min_annual_revenue := some 120000
    , credit_score_min := some 600
    , approval_timeline := "1-2 weeks"
    , commission_min := 1.0, commission_max := 2.5
    , contact_email := some "brokers@fundingcircle.com"
    , availability_status := "accepting_applications"
    , current_appetite := "neutral" }
  , { source_id := "uk_angel_network"
    , name := "UK Angel Investment Network"
    , type_ := "angel_investment"
    , category := "equity_investment"
    , amount_min := 25000, amount_max := 500000
    , sectors := ["technology", "healthcare", "fintech", "clean_energy"]
    , excluded_sectors := ["retail", "hospitality", "construction"]
    , min_trading_years := some 0
    , max_trading_years := some 5
    , approval_timeline := "4-12 weeks"
    , commission_min := 3.0, commission_max := 7.0
    , contact_email := some "deals@ukangelnetwork.co.uk"
    , availability_status := "accepting_applications"
    , current_appetite := "aggressive" }
  , { source_id := "seedcamp_vc"
    , name := "Seedcamp Venture Capital"
    , type_ := "venture_capital"
    , category := "equity_investment"
    , amount_min := 250000, amount_max := 5000000
    , sectors := ["technology", "ai", "fintech", "healthtech"]
    , excluded_sectors := ["traditional_retail", "manufacturing"]
    , min_trading_years := some 0
    , max_trading_years := some 7
    , approval_timeline := "8-24 weeks"
    , commission_min := 2.0, commission_max := 5.0
    , contact_email := some "applications@seedcamp.com"
    , availability_status := "accepting_applications"
    , current_appetite := "selective" }
  , { source_id := "crowdcube"
    , name := "Crowdcube Equity Crowdfunding"
    , type_ := "crowdfunding"
    , category := "alternative_funding"
    , amount_min := 10000, amount_max := 1000000
    , sectors := ["consumer_products", "technology", "food_drink", "retail"]
    , excluded_sectors := ["gambling", "adult_entertainment"]
    , min_trading_years := some 1
    , approval_timeline := "2-8 weeks"
    , commission_min := 3.0, commission_max := 8.0
    , contact_email := some "partnerships@crowdcube.com"
    , availability_status := "accepting_applications"
    , current_appetite := "neutral" }
  , { source_id := "innovate_uk_grant"
    , name := "Innovate UK Smart Grants"
    , type_ := "government_grant"
    , category := "government_funding"
    , amount_min := 25000, amount_max := 500000
    , sectors := ["technology", "healthcare", "clean_energy", "advanced_manufacturing"]
    , excluded_sectors := ["retail", "hospitality", "traditional_services"]
    , min_trading_years := some 0
    , innovation_requirement := true
    , approval_timeline := "6-16 weeks"
    , commission_min := 5.0, commission_max := 15.0
    , contact_email := some "support@innovateuk.ukri.org"
    , availability_status := "seasonal_rounds"
    , current_appetite := "neutral" }
  , { source_id := "london_family_office"
    , name := "London Family Office Network"
    , type_ := "family_office"
    , category := "private_wealth"
    , amount_min := 100000, amount_max := 5000000
    , sectors := ["technology", "healthcare", "real_estate", "luxury_goods"]
    , excluded_sectors := ["gambling", "weapons", "tobacco"]
    , min_trading_years := some 2
    , approval_timeline := "4-16 weeks"
    , commission_min := 1.0, commission_max := 4.0
    , contact_email := some "opportunities@londonfamilyoffice.com"
    , availability_status := "relationship_based"
    , current_appetite := "selective" }
  , { source_id := "scottish_enterprise"
    , name := "Scottish Enterprise Growth Finance"
    , type_ := "regional_grant"
    , category := "government_funding"
    , amount_min := 50000, amount_max := 2000000
    , sectors := ["technology", "manufacturing", "life_sciences", "energy"]
    , geographic_requirement := ["scotland"]
    , excluded_sectors := ["retail", "hospitality"]
    , min_trading_years := some 1
    , approval_timeline := "8-12 weeks"
    , commission_min := 2.0, commission_max := 6.0
    , contact_email := some "finance@scottish-enterprise.com"
    , availability_status := "accepting_applications"
    , current_appetite := "aggressive" } ]

/-- `market_conditions["lending_appetite"]`
(from `_get_current_market_conditions`). -/
def lending_appetite : List (String × String) :=
  [ ("traditional_banks", "selective")
  , ("alternative_lenders", "neutral")
  , ("investors", "cautious")
  , ("government", "supportive") ]

/-- `market_conditions["sector_preferences"]["hot"]` -/
def hot_sectors : List String := ["technology", "clean_energy", "healthcare"]

/-- `market_conditions["sector_preferences"]["neutral"]` -/
def neutral_sectors : List String := ["manufacturing", "professional_services"]

/-- `market_conditions["sector_preferences"]["cold"]` -/
def cold_sectors : List String := ["retail", "hospitality", "construction"]

/-- The per-source eligibility test of `FundingResearcher._filter_by_eligibility`
(the nested `if`s of the loop body). -/
def eligible_source (profile : BusinessProfile) (source : FundingSource) : Bool :=
  decide (source.amount_min ≤ profile.funding_amount) &&
  decide (profile.funding_amount ≤ source.amount_max) &&
  ((source.sectors == ["all"] || source.sectors.contains profile.sector) &&
    !(source.excluded_sectors.contains profile.sector)) &&
  (decide ((source.min_trading_years.getD 0) ≤ profile.business_age) &&
    decide (profile.business_age ≤ source.max_trading_years.getD 999)) &&
  decide ((source.min_annual_revenue.getD 0) ≤ profile.annual_revenue) &&
  (source.geographic_requirement.isEmpty ||
    source.geographic_requirement.contains profile.location.toLower)

/-- `FundingResearcher._filter_by_eligibility` -/
def filter_by_eligibility (profile : BusinessProfile) : List FundingSource :=
  funding_database.filter (eligible_source profile)

/-- `FundingResearcher._get_source_risk_tolerance` -/
def get_source_risk_tolerance (source : FundingSource) : String :=
  (tableGet
    [ ("bank_loan", "low"), ("asset_finance", "low"), ("government_grant", "medium")
    , ("angel_investment", "high"), ("venture_capital", "high")
    , ("crowdfunding", "high"), ("family_office", "medium") ]
    source.type_).getD "medium"

/-- `FundingResearcher._is_risk_compatible` -/
def is_risk_compatible (source_tolerance business_risk : String) : Bool :=
  let accepted : List String :=
    if source_tolerance = "low" then ["low"]
    else if source_tolerance = "medium" then ["low", "medium"]
    else if source_tolerance = "high" then ["low", "medium", "high"]
    else []
  accepted.contains business_risk

/-- `FundingResearcher._meets_credit_requirements` -/
def meets_credit_requirements (source : FundingSource)
    (intelligence : BusinessIntelligence) : Bool :=
  let min_credit := source.credit_score_min.getD 0
  let business_credit := intelligence.creditworthiness * 850
  decide (business_credit ≥ min_credit)

/-- `FundingResearcher._meets_financial_requirements` -/
def meets_financial_requirements (source : FundingSource)
    (intelligence : BusinessIntelligence) : Bool :=
  let max_dr := source.max_debt_ratio.getD 5.0
  let business_debt_ratio := intelligence.fiGetNum "debt_to_equity" 1.0
  if business_debt_ratio > max_dr then false
  else
    let min_readiness : ℚ :=
      if source.type_ = "bank_loan" ∨ source.type_ = "asset_finance" then 0.4 else 0.6
    decide (intelligence.funding_readiness ≥ min_readiness)

/-- `FundingResearcher._filter_by_intelligence` -/
def filter_by_intelligence (sources : List FundingSource)
    (intelligence : BusinessIntelligence) : List FundingSource :=
  sources.filter (fun source =>
    is_risk_compatible (get_source_risk_tolerance source) intelligence.risk_level &&
    meets_credit_requirements source intelligence &&
    meets_financial_requirements source intelligence)

/-- `FundingResearcher._get_sector_market_status` -/
def get_sector_market_status (source : FundingSource) : String :=
  if source.sectors.any (fun sector => hot_sectors.contains sector) then "hot"
  else if source.sectors.any (fun sector => cold_sectors.contains sector) then "cold"
  else "neutral"

/-- `FundingResearcher._adjust_timeline`; `none` models the `ValueError` /
`IndexError` Python would raise on a malformed `"A-B weeks"` string (which
the researcher's top-level `try` would turn into the fallback result). -/
def adjust_timeline (original_timeline appetite sector_status : String) :
    Option String :=
  if strContains original_timeline "week" then do
    let weeks := pySplitDash original_timeline
    let w0 ← weeks.get? 0
    let w1 ← weeks.get? 1
    let min_weeks ← parsePyInt w0
    let tok ← (pySplitWs w1).get? 0
    let max_weeks ← parsePyInt tok
    let mnmx : Int × Int :=
      if appetite = "aggressive" ∧ sector_status = "hot" then
        let mn := max 1 (min_weeks - 1)
        (mn, max mn (max_weeks - 2))
      else if appetite = "selective" ∨ sector_status = "cold" then
        (min_weeks + 1, max_weeks + 3)
      else (min_weeks, max_weeks)
    pure (toString mnmx.1 ++ "-" ++ toString mnmx.2 ++ " weeks")
  else some original_timeline

/-- The market appetite `_apply_market_conditions` looks up for a source. -/
def market_appetite_of (source : FundingSource) : String :=
  (tableGet lending_appetite (firstUnderscoreToken source.category)).getD "neutral"

/-- `FundingResearcher._apply_market_conditions`; `none` models an exception
escaping the loop (only possible from `_adjust_timeline`). -/
def apply_market_conditions : List FundingSource → Option (List FundingSource)
  | [] => some []
  | source :: rest => do
    let appetite := market_appetite_of source
    let sector_status := get_sector_market_status source
    let t ← adjust_timeline source.approval_timeline appetite sector_status
    let rest' ← apply_market_conditions rest
    pure ({ source with
             market_appetite := some appetite
             sector_market_status := some sector_status
             market_adjusted_timeline := some t } :: rest')

/-- The `priority_score` closure of `_prioritize_by_availability`. -/
def priority_score (source : FundingSource) : ℚ :=
  let status_points : ℚ :=
    if source.availability_status = "accepting_applications" then 10
    else if source.availability_status = "selective" then 7
    else if source.availability_status = "seasonal_rounds" then 5
    else if source.availability_status = "relationship_based" then 3
    else if source.availability_status = "limited_capacity" then 1
    else 0
  let appetite_points : ℚ :=
    if source.current_appetite = "aggressive" then 8
    else if source.current_appetite = "neutral" then 5
    else if source.current_appetite = "selective" then 3
    else if source.current_appetite = "cautious" then 1
    else 0
  let avg_commission := (source.commission_min + source.commission_max) / 2
  status_points + appetite_points + avg_commission

/-- `FundingResearcher._prioritize_by_availability` — Python's stable
`sorted(..., reverse=True)` is a stable descending sort, which insertion sort
with this relation reproduces exactly. -/
def prioritize_by_availability (sources : List FundingSource) : List FundingSource :=
  sources.insertionSort (fun a b => priority_score b ≤ priority_score a)

/-- `FundingResearcher._get_fallback_sources` -/
def get_fallback_sources (profile : BusinessProfile) : List FundingSource :=
  [ { source_id := "generic_bank_loan"
    , name := "UK Business Bank Loan"
    , type_ := "bank_loan"
    , amount_min := 5000, amount_max := 250000
    , approval_timeline := "4-8 weeks"
    , commission_min := 1.0, commission_max := 3.0
    , contact_email := some "info@ukbusinessbank.co.uk"
    , availability_status := "unknown"
    , current_appetite := "neutral" } ] ++
  (if profile.funding_amount ≥ 10000 then
    [ { source_id := "generic_asset_finance"
      , name := "UK Asset Finance"
      , type_ := "asset_finance"
      , amount_min := 10000, amount_max := 1000000
      , approval_timeline := "2-4 weeks"
      , commission_min := 2.0, commission_max := 5.0
      , contact_email := some "info@ukassetfinance.co.uk"
      , availability_status := "unknown"
      , current_appetite := "neutral" } ]
   else [])

/-- `FundingResearcher.research_funding_sources`: the pipeline of the `try`
block; the only step that can raise on a well-typed profile is
`_adjust_timeline`'s string parsing, in which case the `except` branch
returns the fallback list. -/
def research_funding_sources (profile : BusinessProfile)
    (intelligence : BusinessIntelligence) : List FundingSource :=
  let eligible_sources := filter_by_eligibility profile
  let intelligence_filtered := filter_by_intelligence eligible_sources intelligence
  match apply_market_conditions intelligence_filtered with
  | some market_adjusted => prioritize_by_availability market_adjusted
  | none => get_fallback_sources profile

/-! ## agents/recommendation_matcher.py -/

/-- Round half to even (the rounding of Python's built-in `round`). -/
def roundHalfEven (q : ℚ) : ℤ :=
  let f := ⌊q⌋
  let r := q - f
  if r < 1/2 then f
  else if 1/2 < r then f + 1
  else if 2 ∣ f then f else f + 1

/-- Python `round(q, nd)`. -/
def pyRound (q : ℚ) (nd : Nat) : ℚ :=
  let m : ℚ := (10 : ℚ) ^ nd
  (roundHalfEven (q * m) : ℚ) / m

/-- Render an integral rational the way Python renders the `int` it came
from (all values formatted by the code are integral catalog entries). -/
def pyNumStr (q : ℚ) : String :=
  if q.den = 1 then toString q.num else toString q.num ++ "/" ++ toString q.den

/-- Digit chunks of three, from the least significant end. -/
def chunk3 (l : List Char) : List (List Char) :=
  match l with
  | [] => []
  | a :: rest => (a :: rest.take 2) :: chunk3 (rest.drop 2)
termination_by l.length
decreasing_by simp [List.length_drop]; omega

/-- Python's `f"{n:,}"` thousands grouping for a non-negative integer. -/
def commaGroup (n : ℤ) : String :=
  let ds := (toString n.natAbs).data
  let grouped := ((chunk3 ds.reverse).map List.reverse).reverse
  (if n < 0 then "-" else "") ++ ⟨(grouped.intersperse [',']).flatten⟩

/-- Python's `f"{q:.1f}"` for the commission percentages (all multiples of
0.5 in the catalog, so the formatting is exact). -/
def formatFixed1 (q : ℚ) : String :=
  let n := roundHalfEven (q * 10)
  toString (n / 10) ++ "." ++ toString (n % 10).natAbs

/-- The dict returned by `RecommendationMatcher._calculate_match_score`. -/
structure MatchScore where
  overall_score : ℚ
  compatibility : ℚ
  approval_probability : ℚ
  commercial_value : ℚ
  strategic_fit : ℚ
deriving DecidableEq, Repr

/-- `RecommendationMatcher._assess_sector_compatibility` -/
def assess_sector_compatibility (source : FundingSource) (sector : String) : ℚ :=
  if source.excluded_sectors.contains sector then 0.0
  else if source.sectors == ["all"] || source.sectors.contains sector then 1.0
  else 0.3

/-- `RecommendationMatcher._assess_stage_compatibility` -/
def assess_stage_compatibility (intelligence : BusinessIntelligence)
    (source : FundingSource) : ℚ :=
  let business_stage := intelligence.stage
  let stage_preferences : List (String × List (String × ℚ)) :=
    [ ("bank_loan", [("mature", 1.0), ("growth", 0.8), ("startup", 0.4)])
    , ("asset_finance", [("mature", 1.0), ("growth", 0.9), ("startup", 0.6)])
    , ("angel_investment", [("startup", 1.0), ("growth", 0.7), ("mature", 0.3)])
    , ("venture_capital", [("startup", 0.9), ("growth", 1.0), ("mature", 0.2)])
    , ("crowdfunding", [("startup", 0.8), ("growth", 0.9), ("mature", 0.5)])
    , ("government_grant", [("startup", 0.9), ("growth", 0.8), ("mature", 0.6)])
    , ("family_office", [("growth", 1.0), ("mature", 0.8), ("startup", 0.6)]) ]
  let preferences := (tableGet stage_preferences source.type_).getD []
  (tableGet preferences business_stage).getD 0.5

/-- `RecommendationMatcher._assess_geographic_compatibility` -/
def assess_geographic_compatibility (source : FundingSource) (location : String) : ℚ :=
  if source.geographic_requirement.isEmpty then 1.0
  else if source.geographic_requirement.contains location.toLower then 1.0
  else 0.0

/-- `RecommendationMatcher._assess_amount_compatibility` -/
def assess_amount_compatibility (source : FundingSource) (amount : ℚ) : ℚ :=
  if source.amount_min ≤ amount ∧ amount ≤ source.amount_max then
    let mid_point := (source.amount_min + source.amount_max) / 2
    let range_size := source.amount_max - source.amount_min
    if |amount - mid_point| ≤ range_size * 0.25 then 1.0 else 0.8
  else 0.0

/-- `RecommendationMatcher._assess_compliance_compatibility` -/
def assess_compliance_compatibility : ℚ := 0.9

/-- `RecommendationMatcher._calculate_compatibility_score` -/
def calculate_compatibility_score (intelligence : BusinessIntelligence)
    (source : FundingSource) (profile : BusinessProfile) : ℚ :=
  let score :=
    assess_sector_compatibility source profile.sector * 0.25 +
    assess_stage_compatibility intelligence source * 0.25 +
    assess_geographic_compatibility source profile.location * 0.20 +
    assess_amount_compatibility source profile.funding_amount * 0.20 +
    assess_compliance_compatibility * 0.10
  pymin score 1.0

/-- `RecommendationMatcher._assess_historical_success_rate` -/
def assess_historical_success_rate (intelligence : BusinessIntelligence)
    (source : FundingSource) : ℚ :=
  let base_rates : List (String × ℚ) :=
    [ ("bank_loan", 0.65), ("asset_finance", 0.75), ("angel_investment", 0.25)
    , ("venture_capital", 0.15), ("crowdfunding", 0.45)
    , ("government_grant", 0.35), ("family_office", 0.40) ]
  let base_rate := (tableGet base_rates source.type_).getD 0.5
  let readiness := intelligence.funding_readiness
  let creditworthiness := intelligence.creditworthiness
  let adjusted_rate :=
    base_rate * (0.5 + 0.5 * readiness) * (0.5 + 0.5 * creditworthiness)
  pymin adjusted_rate 1.0

/-- `RecommendationMatcher._assess_current_appetite` -/
def assess_current_appetite (source : FundingSource) : ℚ :=
  let appetite_scores : List (String × ℚ) :=
    [ ("aggressive", 1.0), ("neutral", 0.7), ("selective", 0.5)
    , ("cautious", 0.3), ("limited", 0.1) ]
  (tableGet appetite_scores source.current_appetite).getD 0.5

/-- `RecommendationMatcher._assess_financial_alignment` -/
def assess_financial_alignment (intelligence : BusinessIntelligence) : ℚ :=
  let creditworthiness := intelligence.creditworthiness
  let repayment_capacity := intelligence.fiNum "repayment_capacity"
  creditworthiness * 0.6 + repayment_capacity * 0.4

/-- `RecommendationMatcher._assess_management_fit` -/
def assess_management_fit (intelligence : BusinessIntelligence)
    (source : FundingSource) : ℚ :=
  let management_strength := intelligence.fiNum "management_strength"
  if source.type_ = "venture_capital" ∨ source.type_ = "angel_investment" then
    management_strength
  else
    0.7 + management_strength * 0.3

/-- `RecommendationMatcher._assess_market_conditions` -/
def assess_market_conditions (source : FundingSource) : ℚ :=
  let sector_status := source.sector_market_status.getD "neutral"
  let status_scores : List (String × ℚ) := [("hot", 1.0), ("neutral", 0.7), ("cold", 0.4)]
  (tableGet status_scores sector_status).getD 0.7

/-- `RecommendationMatcher._calculate_approval_probability` -/
def calculate_approval_probability (intelligence : BusinessIntelligence)
    (source : FundingSource) : ℚ :=
  let score :=
    assess_historical_success_rate intelligence source * 0.30 +
    assess_current_appetite source * 0.25 +
    assess_financial_alignment intelligence * 0.25 +
    assess_management_fit intelligence source * 0.10 +
    assess_market_conditions source * 0.10
  pymin score 1.0

/-- `RecommendationMatcher._assess_commission_potential` -/
def assess_commission_potential (source : FundingSource)
    (profile : BusinessProfile) : ℚ :=
  let avg_commission := (source.commission_min + source.commission_max) / 2
  let potential_revenue := (avg_commission / 100) * profile.funding_amount
  pymin (potential_revenue / 10000) 1.0

/-- `RecommendationMatcher._assess_processing_efficiency` -/
def assess_processing_efficiency (source : FundingSource) : ℚ :=
  let timeline := source.approval_timeline
  if strContains timeline "week" then
    match ((pySplitDash timeline).get? 1).bind
        (fun w => ((pySplitWs w).get? 0).bind parsePyInt) with
    | some max_weeks => pymax 0.1 (1.0 - ((max_weeks : ℚ) - 1) / 20)
    | none => 0.5
  else 0.5

/-- `RecommendationMatcher._assess_relationship_quality` -/
def assess_relationship_quality (source : FundingSource) : ℚ :=
  if source.availability_status = "relationship_based" then 0.9
  else if source.type_ = "family_office" ∨ source.type_ = "venture_capital" then 0.8
  else 0.6

/-- `RecommendationMatcher._assess_application_complexity` -/
def assess_application_complexity (source : FundingSource) : ℚ :=
  let complexity_by_type : List (String × ℚ) :=
    [ ("asset_finance", 0.9), ("bank_loan", 0.7), ("crowdfunding", 0.6)
    , ("government_grant", 0.4), ("venture_capital", 0.3)
    , ("angel_investment", 0.5), ("family_office", 0.4) ]
  (tableGet complexity_by_type source.type_).getD 0.5

/-- `RecommendationMatcher._calculate_commercial_value` -/
def calculate_commercial_value (source : FundingSource)
    (profile : BusinessProfile) : ℚ :=
  let score :=
    assess_commission_potential source profile * 0.40 +
    assess_processing_efficiency source * 0.30 +
    assess_relationship_quality source * 0.20 +
    assess_application_complexity source * 0.10
  pymin score 1.0

/-- `RecommendationMatcher._assess_longterm_potential` -/
def assess_longterm_potential (source : FundingSource) : ℚ :=
  if source.type_ = "venture_capital" ∨ source.type_ = "family_office" ∨
      source.type_ = "angel_investment" then 0.9
  else if source.type_ = "bank_loan" ∨ source.type_ = "asset_finance" then 0.6
  else 0.4

/-- `RecommendationMatcher._assess_portfolio_fit` -/
def assess_portfolio_fit : ℚ := 0.7

/-- `RecommendationMatcher._assess_reputation_value` -/
def assess_reputation_value (source : FundingSource) : ℚ :=
  let reputation_by_name : List (String × ℚ) :=
    [("Barclays", 0.9), ("Lloyds", 0.9), ("Seedcamp", 0.8), ("Crowdcube", 0.7)]
  match reputation_by_name.find? (fun e => strContains source.name e.1) with
  | some e => e.2
  | none => 0.6

/-- `RecommendationMatcher._assess_followon_potential` -/
def assess_followon_potential (source : FundingSource) : ℚ :=
  if source.type_ = "venture_capital" ∨ source.type_ = "angel_investment" then 0.8
  else if source.type_ = "family_office" then 0.7
  else 0.3

/-- `RecommendationMatcher._assess_network_benefits` -/
def assess_network_benefits (source : FundingSource)
    (profile : BusinessProfile) : ℚ :=
  if source.type_ = "venture_capital" ∨ source.type_ = "angel_investment" ∨
      source.type_ = "family_office" then 0.8
  else if profile.sector = "technology" then 0.6
  else 0.4

/-- `RecommendationMatcher._calculate_strategic_fit` -/
def calculate_strategic_fit (source : FundingSource)
    (profile : BusinessProfile) : ℚ :=
  let score :=
    assess_longterm_potential source * 0.40 +
    assess_portfolio_fit * 0.20 +
    assess_reputation_value source * 0.20 +
    assess_followon_potential source * 0.10 +
    assess_network_benefits source profile * 0.10
  pymin score 1.0

/-- `RecommendationMatcher._calculate_match_score` -/
def calculate_match_score (intelligence : BusinessIntelligence)
    (source : FundingSource) (profile : BusinessProfile) : MatchScore :=
  let compatibility := calculate_compatibility_score intelligence source profile
  let probability := calculate_approval_probability intelligence source
  let commercial := calculate_commercial_value source profile
  let strategic := calculate_strategic_fit source profile
  let overall_score :=
    compatibility * weight_compatibility +
    probability * weight_approval_probability +
    commercial * weight_commercial_value +
    strategic * weight_strategic_fit
  { overall_score := pymin overall_score 1.0
    compatibility := compatibility
    approval_probability := probability
    commercial_value := commercial
    strategic_fit := strategic }

/-- The `MatchResult` dataclass (the `contact` dict flattened to its only
read key, `email`). -/
structure MatchResult where
  source_id : String
  source_name : String
  funding_type : String
  overall_score : ℚ
  score_breakdown : MatchScore
  success_probability : ℚ
  amount_range : String
  timeline : String
  broker_commission : String
  requirements : List String
  contact_email : Option String
  next_steps : List String
  reasoning : String
deriving DecidableEq, Repr

/-- `RecommendationMatcher._generate_requirements` -/
def generate_requirements (source : FundingSource)
    (intelligence : BusinessIntelligence) : List String :=
  let requirements : List String := []
  let min_years := source.min_trading_years.getD 0
  let requirements :=
    if min_years > 0 then
      requirements ++ ["Minimum " ++ pyNumStr min_years ++ " years trading history"]
    else requirements
  let min_revenue := source.min_annual_revenue.getD 0
  let requirements :=
    if min_revenue > 0 then
      requirements ++ ["Minimum £" ++ commaGroup min_revenue.num ++ " annual revenue"]
    else requirements
  let requirements :=
    if source.innovation_requirement then
      requirements ++ ["Innovation/R&D focus required"]
    else requirements
  let requirements :=
    if source.asset_requirement then requirements ++ ["Asset backing required"]
    else requirements
  let requirements :=
    if intelligence.creditworthiness < 0.7 then
      requirements ++ ["Strong credit history essential"]
    else requirements
  requirements.take 5

/-- `RecommendationMatcher._generate_next_steps` -/
def generate_next_steps (source : FundingSource) : List String :=
  let steps : List String :=
    if source.type_ = "bank_loan" ∨ source.type_ = "asset_finance" then
      [ "Prepare 3 years of audited accounts"
      , "Gather recent bank statements"
      , "Complete business plan summary" ]
    else if source.type_ = "venture_capital" ∨ source.type_ = "angel_investment" then
      [ "Prepare investor pitch deck"
      , "Document growth strategy"
      , "Prepare financial projections" ]
    else if source.type_ = "government_grant" then
      [ "Review eligibility criteria in detail"
      , "Prepare innovation/project plan"
      , "Complete online application" ]
    else []
  let steps :=
    match source.contact_email with
    | some email => steps ++ ["Contact via " ++ email]
    | none => steps
  steps.take 4

/-- `RecommendationMatcher._generate_reasoning` -/
def generate_reasoning (match_score : MatchScore) (source : FundingSource) : String :=
  let reasons : List String :=
    (if match_score.compatibility ≥ 0.8 then
      ["excellent sector and stage alignment"] else []) ++
    (if match_score.approval_probability ≥ 0.7 then
      ["high approval probability based on financial profile"] else []) ++
    (if match_score.commercial_value ≥ 0.7 then
      ["attractive commission structure"] else []) ++
    (if source.current_appetite = "aggressive" then
      ["actively seeking new deals"] else []) ++
    (if source.availability_status = "accepting_applications" then
      ["currently accepting applications"] else [])
  if ¬reasons.isEmpty then
    "Recommended due to " ++ String.intercalate ", " reasons ++ "."
  else
    "Solid match across multiple criteria."

/-- `RecommendationMatcher._create_match_result` -/
def create_match_result (source : FundingSource) (match_score : MatchScore)
    (intelligence : BusinessIntelligence) : MatchResult :=
  let success_probability :=
    match_score.approval_probability * 0.7 + match_score.compatibility * 0.3
  { source_id := source.source_id
    source_name := source.name
    funding_type := source.type_
    overall_score := match_score.overall_score
    score_breakdown := match_score
    success_probability := success_probability
    amount_range :=
      "£" ++ commaGroup source.amount_min.num ++ " - £" ++ commaGroup source.amount_max.num
    timeline := source.market_adjusted_timeline.getD source.approval_timeline
    broker_commission :=
      formatFixed1 source.commission_min ++ "%-" ++ formatFixed1 source.commission_max ++ "%"
    requirements := generate_requirements source intelligence
    contact_email := source.contact_email
    next_steps := generate_next_steps source
    reasoning := generate_reasoning match_score source }

/-- The body of the diversity loop in
`RecommendationMatcher._rank_and_diversify_matches`: walk the sorted list,
admitting a match only while its funding type has fewer than
`DIVERSITY_REQUIREMENT` admissions (`type_counts` modelled as a function). -/
def diversify_go : List MatchResult → (String → Nat) → List MatchResult
  | [], _ => []
  | m :: rest, type_counts =>
    let current_count := type_counts m.funding_type
    if current_count < DIVERSITY_REQUIREMENT then
      m :: diversify_go rest
        (fun t => if t = m.funding_type then current_count + 1 else type_counts t)
    else
      diversify_go rest type_counts

/-- `RecommendationMatcher._rank_and_diversify_matches` — Python's stable
`sorted(..., reverse=True)` modelled by a stable insertion sort on the same
key. -/
def rank_and_diversify_matches (match_list : List MatchResult) : List MatchResult :=
  let sorted_matches :=
    match_list.insertionSort (fun a b => b.overall_score ≤ a.overall_score)
  diversify_go sorted_matches (fun _ => 0)

/-- `RecommendationMatcher._match_result_to_dict` (rounds every score to three
decimals; the dict has the same fields as the dataclass). -/
def match_result_to_dict (m : MatchResult) : MatchResult :=
  { m with
    overall_score := pyRound m.overall_score 3
    score_breakdown :=
      { overall_score := pyRound m.score_breakdown.overall_score 3
        compatibility := pyRound m.score_breakdown.compatibility 3
        approval_probability := pyRound m.score_breakdown.approval_probability 3
        commercial_value := pyRound m.score_breakdown.commercial_value 3
        strategic_fit := pyRound m.score_breakdown.strategic_fit 3 }
    success_probability := pyRound m.success_probability 3 }

/-- `RecommendationMatcher.generate_matches`, normal (non-fallback) path: the
body of the `try` block, which cannot raise on the embedded data. -/
def generate_matches (intelligence : BusinessIntelligence)
    (funding_sources : List FundingSource) (profile : BusinessProfile) :
    List MatchResult :=
  let match_list := funding_sources.filterMap (fun source =>
    let match_score := calculate_match_score intelligence source profile
    if match_score.overall_score ≥ MIN_MATCH_SCORE then
      some (create_match_result source match_score intelligence)
    else none)
  let ranked_matches := rank_and_diversify_matches match_list
  let final_matches := ranked_matches.take MAX_RECOMMENDATIONS
  final_matches.map match_result_to_dict

/-- `RecommendationMatcher._create_fallback_matches` (its `score_breakdown`
dict has no `overall_score` key; the field here mirrors the top-level score,
and is never read). -/
def create_fallback_matches : List MatchResult :=
  [ { source_id := "fallback_generic"
    , source_name := "UK Business Finance"
    , funding_type := "bank_loan"
    , overall_score := 0.6
    , score_breakdown :=
        { overall_score := 0.6, compatibility := 0.6, approval_probability := 0.6
        , commercial_value := 0.6, strategic_fit := 0.6 }
    , success_probability := 0.6
    , amount_range := "Contact for details"
    , timeline := "4-8 weeks"
    , broker_commission := "2-4%"
    , requirements := ["Business plan", "Financial statements"]
    , contact_email := some "info@ukbusinessfinance.co.uk"
    , next_steps := ["Contact for initial assessment"]
    , reasoning := "Generic business lending option." } ]

/-! ## main.py — `CapitalRecommenderOrchestrator`

The orchestrator receives a raw, dynamically-typed record.  Values are
modelled by `JValue`; operations that Python would raise on return
`Except String`, the error being the propagated exception.  Wall-clock fields
(`execution_time`, session ids) are real-time effects and are not modelled;
no claim mentions them. -/

/-- A raw JSON-ish Python value: `None`, a string, a number, or a dict. -/
inductive JValue where
  | jnull
  | jstr (s : String)
  | jnum (q : ℚ)
  | jdict (entries : List (String × JValue))

/-- The raw request record passed to `process_recommendation_request`. -/
def Input : Type := List (String × JValue)

/-- `data.get(key)` -/
def pyGet (data : Input) (key : String) : Option JValue := tableGet data key

/-- Parse an unsigned decimal literal (`123`, `123.45`, `123.`, `.5`). -/
def parseUnsignedFloat (l : List Char) : Option ℚ :=
  let intPart := l.takeWhile (fun c => c.isDigit)
  let rest := l.dropWhile (fun c => c.isDigit)
  match rest with
  | [] =>
    if intPart.isEmpty then none else (parseDigits intPart).map (fun n => (n : ℚ))
  | '.' :: frac =>
    if frac.all (fun c => c.isDigit) ∧ ¬(intPart.isEmpty ∧ frac.isEmpty) then
      let i : ℚ := ((parseDigits intPart).getD 0 : ℕ)
      let f : ℚ := ((parseDigits frac).getD 0 : ℕ)
      some (i + f / (10 : ℚ) ^ frac.length)
    else none
  | _ => none

/-- Python `float(s)` for a string (exponents never occur in the inputs
modelled here). -/
def parsePyFloat (s : String) : Option ℚ :=
  match trimChars s.data with
  | '-' :: ds => (parseUnsignedFloat ds).map (fun q => -q)
  | '+' :: ds => parseUnsignedFloat ds
  | ds => parseUnsignedFloat ds

/-- Python `float(v)`; the error is the raised `TypeError`/`ValueError`. -/
def pyFloat : JValue → Except String ℚ
  | .jnum q => .ok q
  | .jstr s =>
    match parsePyFloat s with
    | some q => .ok q
    | none => .error "ValueError: could not convert string to float"
  | .jnull => .error "TypeError: float() argument must be a string or a number"
  | .jdict _ => .error "TypeError: float() argument must be a string or a number"

/-- Python `int(v)` (truncation toward zero on numbers; integer-literal
strings only). -/
def pyInt : JValue → Except String Int
  | .jnum q => .ok (if q ≥ 0 then ⌊q⌋ else -⌊-q⌋)
  | .jstr s =>
    match parsePyInt s with
    | some n => .ok n
    | none => .error "ValueError: invalid literal for int()"
  | .jnull => .error "TypeError: int() argument must be a string or a number"
  | .jdict _ => .error "TypeError: int() argument must be a string or a number"

/-- A numeric comparison with a raw value (`business_age <= 2` and similar);
Python raises `TypeError` when the value is not a number. -/
def jAsNum : JValue → Except String ℚ
  | .jnum q => .ok q
  | _ => .error "TypeError: comparison not supported between these types"

/-- `v.lower()`; raises `AttributeError` unless `v` is a string. -/
def jLower : JValue → Except String String
  | .jstr s => .ok s.toLower
  | _ => .error "AttributeError: object has no attribute lower"

/-- `v.replace(' ', '_').lower()` — the `business_id` expression of
`process_recommendation_request`; raises unless `v` is a string. -/
def jReplaceLower : JValue → Except String String
  | .jstr s => .ok ((s.replace " " "_").toLower)
  | _ => .error "AttributeError: object has no attribute replace"

/-- `UK_SECTORS.get(sector, {})` with a raw key; a dict key raises
`TypeError: unhashable type`, any other non-matching key just misses. -/
def ukSectorsGetRaw : JValue → Except String (Option SectorInfo)
  | .jdict _ => .error "TypeError: unhashable type"
  | .jstr s => .ok (tableGet UK_SECTORS s)
  | _ => .ok none

/-- Membership of a raw value in a list of strings (Python `in`). -/
def jMemStr (v : JValue) (l : List String) : Bool :=
  match v with
  | .jstr s => l.contains s
  | _ => false

/-- `CapitalRecommenderOrchestrator._validate_input` -/
def validate_input (data : Input) : Bool :=
  [ "company_name", "sector", "annual_revenue", "employees", "location"
  , "funding_amount" ].all (fun field =>
    match pyGet data field with
    | some JValue.jnull => false
    | some _ => true
    | none => false)

/-- The `BusinessProfile` object as `main.py` builds it: converted numeric
fields, every other field kept raw. -/
structure MainProfile where
  company_name : JValue
  sector : JValue
  annual_revenue : ℚ
  employees : Int
  location : JValue
  business_age : JValue
  funding_amount : ℚ
  funding_purpose : JValue
  timeline : JValue
  financials : JValue

/-- `BusinessProfile.__init__` (step 2 of the pipeline); conversion failures
are raised exceptions. -/
def build_business_profile (data : Input) : Except String MainProfile := do
  let company_name := (pyGet data "company_name").getD JValue.jnull
  let sector := (pyGet data "sector").getD JValue.jnull
  let annual_revenue ← pyFloat ((pyGet data "annual_revenue").getD JValue.jnull)
  let employees ← pyInt ((pyGet data "employees").getD JValue.jnull)
  let location := (pyGet data "location").getD JValue.jnull
  let business_age := (pyGet data "business_age").getD (JValue.jnum 1)
  let funding_amount ← pyFloat ((pyGet data "funding_amount").getD JValue.jnull)
  let funding_purpose := (pyGet data "funding_purpose").getD (JValue.jstr "expansion")
  let timeline := (pyGet data "timeline").getD (JValue.jstr "3_months")
  let financials := (pyGet data "financials").getD (JValue.jdict [])
  pure { company_name, sector, annual_revenue, employees, location, business_age
       , funding_amount, funding_purpose, timeline, financials }

/-- The intelligence dict built by `_simulate_business_analysis`
(`matching_tags` mixes raw values and strings, hence `List JValue`). -/
structure MainIntel where
  risk_level : String
  stage : String
  creditworthiness : ℚ
  growth_trajectory : String
  funding_readiness : ℚ
  sector_attractiveness : String
  amount_justification : String
  repayment_capacity : ℚ
  asset_backing : ℚ
  management_strength : ℚ
  matching_tags : List JValue
  red_flags : List String
  recommended_funding_types : List String

/-- `CapitalRecommenderOrchestrator._simulate_business_analysis` (the
`region_risk` local is computed — and can raise — but is never read). -/
def simulate_business_analysis (profile : MainProfile) :
    Except String MainIntel := do
  let age ← jAsNum profile.business_age
  let stage := if age ≤ 2 then "startup" else if age ≤ 7 then "growth" else "mature"
  let sector_info ← ukSectorsGetRaw profile.sector
  let sector_risk := ((sector_info.map (·.risk_level)).getD "medium")
  let loc ← jLower profile.location
  let _region_risk := if loc = "london" then "low" else "medium"
  let revenue_score := pymin (profile.annual_revenue / 1000000) 1.0
  let age_score := pymin (age / 10) 1.0
  let creditworthiness := revenue_score * 0.6 + age_score * 0.4
  let funding_ratio := profile.funding_amount / pymax profile.annual_revenue 1
  let readiness_base : ℚ :=
    if funding_ratio ≤ 0.5 then 0.8 else if funding_ratio ≤ 1.0 then 0.6 else 0.4
  pure
    { risk_level := sector_risk
      stage := stage
      creditworthiness := creditworthiness
      growth_trajectory := if stage = "startup" then "accelerating" else "stable"
      funding_readiness := readiness_base
      sector_attractiveness := ((sector_info.map (·.growth_potential)).getD "medium")
      amount_justification := if funding_ratio ≤ 1.0 then "reasonable" else "optimistic"
      repayment_capacity := creditworthiness
      asset_backing :=
        if jMemStr profile.sector ["manufacturing", "construction"] then 0.7 else 0.4
      management_strength := 0.75
      matching_tags := [profile.sector, JValue.jstr stage, JValue.jstr loc]
      red_flags := if funding_ratio > 2.0 then ["high_funding_ratio"] else []
      recommended_funding_types :=
        if stage = "mature" then ["bank_loan", "asset_finance"]
        else ["angel_investment", "vc"] }

/-- A source dict of `_simulate_funding_research`. -/
structure MainSource where
  source_id : String
  name : String
  type_ : String
  amount_min : ℚ
  amount_max : ℚ
  commission_min : ℚ
  commission_max : ℚ
  timeline : String
  current_appetite : String
  sectors : List String
  min_trading_years : ℚ
deriving DecidableEq, Repr

/-- The hardcoded source list of `_simulate_funding_research`. -/
def main_sources : List MainSource :=
  [ { source_id := "barclays_business_loan", name := "Barclays Business Loan"
    , type_ := "bank_loan", amount_min := 5000, amount_max := 250000
    , commission_min := 1.5, commission_max := 3.0, timeline := "2-4 weeks"
    , current_appetite := "selective", sectors := ["all"], min_trading_years := 2 }
  , { source_id := "uk_angel_network", name := "UK Angel Investment Network"
    , type_ := "angel_investment", amount_min := 25000, amount_max := 500000
    , commission_min := 3.0, commission_max := 7.0, timeline := "4-12 weeks"
    , current_appetite := "aggressive", sectors := ["technology", "healthcare"]
    , min_trading_years := 0 }
  , { source_id := "lloyds_asset_finance", name := "Lloyds Asset Finance"
    , type_ := "asset_finance", amount_min := 10000, amount_max := 2000000
    , commission_min := 2.0, commission_max := 5.0, timeline := "1-3 weeks"
    , current_appetite := "aggressive"
    , sectors := ["manufacturing", "construction", "transport"]
    , min_trading_years := 1 }
  , { source_id := "crowdcube", name := "Crowdcube Equity Crowdfunding"
    , type_ := "crowdfunding", amount_min := 10000, amount_max := 1000000
    , commission_min := 3.0, commission_max := 8.0, timeline := "2-8 weeks"
    , current_appetite := "neutral", sectors := ["consumer_products", "technology"]
    , min_trading_years := 1 } ]

/-- The eligibility loop of `_simulate_funding_research`; the
`business_age >= min_trading_years` comparison raises when `business_age` is
not a number. -/
def sim_research_go (profile : MainProfile) :
    List MainSource → Except String (List MainSource)
  | [] => .ok []
  | source :: rest => do
    let keep ←
      if source.amount_min ≤ profile.funding_amount ∧
          profile.funding_amount ≤ source.amount_max then do
        let age ← jAsNum profile.business_age
        if age ≥ source.min_trading_years then
          pure (source.sectors == ["all"] || jMemStr profile.sector source.sectors)
        else pure false
      else pure false
    let rest' ← sim_research_go profile rest
    pure (if keep then source :: rest' else rest')

/-- `CapitalRecommenderOrchestrator._simulate_funding_research` -/
def simulate_funding_research (profile : MainProfile) :
    Except String (List MainSource) :=
  sim_research_go profile main_sources

/-- A match dict of `_simulate_recommendation_matching`. -/
structure MainMatch where
  source : MainSource
  overall_score : ℚ
  compatibility : ℚ
  probability : ℚ
  commercial : ℚ
  strategic : ℚ
  success_probability : ℚ
deriving DecidableEq, Repr

/-- `CapitalRecommenderOrchestrator._calculate_compatibility` -/
def main_calculate_compatibility (source : MainSource) (profile : MainProfile) : ℚ :=
  let score : ℚ := 0.8
  let score := if jMemStr profile.sector source.sectors then score + 0.1 else score
  let mid_point := (source.amount_min + source.amount_max) / 2
  let score :=
    if |profile.funding_amount - mid_point| < mid_point * 0.5 then score + 0.1
    else score
  pymin score 1.0

/-- `CapitalRecommenderOrchestrator._calculate_probability` -/
def main_calculate_probability (source : MainSource)
    (intelligence : MainIntel) : ℚ :=
  let base_rates : List (String × ℚ) :=
    [ ("bank_loan", 0.65), ("asset_finance", 0.75), ("angel_investment", 0.25)
    , ("venture_capital", 0.15), ("crowdfunding", 0.45) ]
  let base_rate := (tableGet base_rates source.type_).getD 0.5
  let creditworthiness := intelligence.creditworthiness
  let appetite_multiplier : List (String × ℚ) :=
    [("aggressive", 1.2), ("neutral", 1.0), ("selective", 0.8), ("cautious", 0.6)]
  let multiplier := (tableGet appetite_multiplier source.current_appetite).getD 1.0
  pymin (base_rate * creditworthiness * multiplier) 1.0

/-- `CapitalRecommenderOrchestrator._calculate_commercial_value` -/
def main_calculate_commercial_value (source : MainSource)
    (profile : MainProfile) : ℚ :=
  let avg_commission := (source.commission_min + source.commission_max) / 2
  let potential_revenue := (avg_commission / 100) * profile.funding_amount
  pymin (potential_revenue / 10000) 1.0

/-- `CapitalRecommenderOrchestrator._calculate_strategic_fit` -/
def main_calculate_strategic_fit (source : MainSource) : ℚ :=
  if source.type_ = "angel_investment" ∨ source.type_ = "venture_capital" then 0.8
  else if source.type_ = "bank_loan" ∨ source.type_ = "asset_finance" then 0.6
  else 0.4

/-- `CapitalRecommenderOrchestrator._simulate_recommendation_matching` -/
def simulate_recommendation_matching (intelligence : MainIntel)
    (sources : List MainSource) (profile : MainProfile) : List MainMatch :=
  let match_list := sources.filterMap (fun source =>
    let compatibility := main_calculate_compatibility source profile
    let probability := main_calculate_probability source intelligence
    let commercial := main_calculate_commercial_value source profile
    let strategic := main_calculate_strategic_fit source
    let overall_score :=
      compatibility * weight_compatibility +
      probability * weight_approval_probability +
      commercial * weight_commercial_value +
      strategic * weight_strategic_fit
    if overall_score ≥ MIN_MATCH_SCORE then
      some { source, overall_score, compatibility, probability, commercial, strategic
           , success_probability := probability * 0.7 + compatibility * 0.3 }
    else none)
  let sorted :=
    match_list.insertionSort (fun a b => b.overall_score ≤ a.overall_score)
  sorted.take MAX_RECOMMENDATIONS

/-- A formatted recommendation record (`contact_info` is the constant
`{"type": "simulated"}`). -/
structure MainRecommendation where
  rank : Nat
  funding_source : String
  type_ : String
  match_score : ℚ
  success_probability : ℚ
  amount_range : String
  timeline : String
  broker_commission : String
  requirements : List String
  next_steps : List String
  reasoning : String
deriving DecidableEq, Repr

/-- `CapitalRecommenderOrchestrator._format_recommendations` -/
def format_recommendations (match_list : List MainMatch) : List MainRecommendation :=
  match_list.enum.map (fun im =>
    let i := im.1
    let m := im.2
    let source := m.source
    { rank := i + 1
      funding_source := source.name
      type_ := source.type_
      match_score := pyRound m.overall_score 2
      success_probability := pyRound m.success_probability 2
      amount_range :=
        "£" ++ commaGroup source.amount_min.num ++ " - £" ++
          commaGroup source.amount_max.num
      timeline := source.timeline
      broker_commission :=
        formatFixed1 source.commission_min ++ "%-" ++
          formatFixed1 source.commission_max ++ "%"
      requirements := ["Minimum " ++ pyNumStr source.min_trading_years ++ " years trading"]
      next_steps := ["Prepare business plan", "Gather financial documents"]
      reasoning :=
        "Strong match based on " ++ (source.type_.replace "_" " ") ++ " criteria" })

/-- `CapitalRecommenderOrchestrator._calculate_confidence_level` -/
def calculate_confidence_level (recommendations : List MainRecommendation) : String :=
  if recommendations.isEmpty then "none"
  else
    let avg_score :=
      (recommendations.map (·.match_score)).sum / (recommendations.length : ℚ)
    if avg_score ≥ 0.85 then "very_high"
    else if avg_score ≥ 0.75 then "high"
    else if avg_score ≥ 0.65 then "medium"
    else "low"

/-- The response envelope (`execution_time` is wall-clock and not modelled). -/
structure MainEnvelope where
  business_id : String
  recommendations : List MainRecommendation
  total_processed : Nat
  confidence_level : String
  success : Bool
  errors : List String := []
deriving DecidableEq, Repr

/-- `ERROR_MESSAGES` lookup used by `_create_error_result`. -/
def error_message (code : Nat) : String :=
  (tableGet
    [ ("1001", "Invalid business profile data provided")
    , ("1002", "Insufficient information to generate recommendations")
    , ("1003", "No suitable funding sources found for this profile")
    , ("1004", "External API request timed out")
    , ("1005", "System temporarily overloaded, please retry")
    , ("1006", "Request violates regulatory compliance rules") ]
    (toString code)).getD "Unknown error"

/-- `CapitalRecommenderOrchestrator._create_error_result` -/
def create_error_result (business_id : String) (error_code : Nat) : MainEnvelope :=
  { business_id := business_id
    recommendations := []
    total_processed := 0
    confidence_level := "none"
    success := false
    errors := [error_message error_code] }

/-- `CapitalRecommenderOrchestrator.process_recommendation_request`.
A top-level `.error` is an exception propagating to the caller: the
`business_id` expression runs *before* the `try` block, so its
`AttributeError` (on a non-string `company_name`) escapes.  Everything after
it is inside the `try` and is converted to a `success=false` envelope. -/
def process_recommendation_request (data : Input) : Except String MainEnvelope :=
  match jReplaceLower ((pyGet data "company_name").getD (JValue.jstr "unknown")) with
  | .error e => .error e
  | .ok business_id =>
    if ¬validate_input data then
      .ok (create_error_result business_id 1001)
    else
      match (do
        let profile ← build_business_profile data
        let intelligence ← simulate_business_analysis profile
        let available_sources ← simulate_funding_research profile
        let match_list :=
          simulate_recommendation_matching intelligence available_sources profile
        let recommendations := format_recommendations match_list
        pure (recommendations, available_sources.length) :
          Except String (List MainRecommendation × Nat)) with
      | .ok res =>
        .ok
          { business_id := business_id
            recommendations := res.1
            total_processed := res.2
            confidence_level := calculate_confidence_level res.1
            success := true }
      | .error e =>
        .ok
          { business_id := business_id
            recommendations := []
            total_processed := 0
            confidence_level := "low"
            success := false
            errors := [e] }

/-! ## General lemmas about the embedding's primitives -/

theorem pymin_le_right (a b : ℚ) : pymin a b ≤ b := by
  unfold pymin; split <;> linarith

theorem pymin_le_left (a b : ℚ) : pymin a b ≤ a := by
  unfold pymin; split <;> linarith

theorem pymin_nonneg {a b : ℚ} (ha : 0 ≤ a) (hb : 0 ≤ b) : 0 ≤ pymin a b := by
  unfold pymin; split <;> linarith

theorem le_pymax_left (a b : ℚ) : a ≤ pymax a b := by
  unfold pymax; split <;> linarith

/-- A `.get(key, default)` read satisfies any property satisfied by the
default and by every value in the table. -/
theorem tableGet_getD_prop {α : Type} (P : α → Prop) (tbl : List (String × α))
    (k : String) (d : α) (hd : P d) (h : ∀ e ∈ tbl, P e.2) :
    P ((tableGet tbl k).getD d) := by
  unfold tableGet
  cases hfind : tbl.find? (fun e => e.1 == k) with
  | none => simpa using hd
  | some e => simpa using h e (List.mem_of_find?_eq_some hfind)

/-! ## Claim theorems -/

/-- Profile for the C6 counterexample: one year old but with exactly £500,000
revenue. -/
def stage_cex_profile : BusinessProfile :=
  { company_name := "Young HighRev Ltd", sector := "technology"
  , annual_revenue := 500000, employees := 5, location := "london"
  , business_age := 1, funding_amount := 100000 }

/-- C6 counterexample: the claim says the stage is a function of
`business_age` alone, with `startup` whenever `business_age ≤ 2`; but a
one-year-old profile with £500,000 revenue is classified `"growth"`, and a
ten-year-old profile with £1,000,000 revenue is also `"growth"` where the
claim's age-only thresholds demand `"mature"`. -/
theorem C6_counterexample :
    determine_business_stage stage_cex_profile = "growth" ∧
      stage_cex_profile.business_age ≤ 2 ∧
    determine_business_stage { stage_cex_profile with
        business_age := 10, annual_revenue := 1000000 } = "growth" := by
  refine ⟨by with_unfolding_all decide, by with_unfolding_all decide,
    by with_unfolding_all decide⟩

/-- C6 amended: the Analyzer's business stage is a function of `business_age`
*and* `annual_revenue`: `startup` iff age ≤ 2 and revenue < £500k, `mature`
iff age > 7 and revenue ≥ £2m, and `growth` otherwise. -/
theorem C6_amended (p : BusinessProfile) :
    (determine_business_stage p = "startup" ↔
      p.business_age ≤ 2 ∧ p.annual_revenue < 500000) ∧
    (determine_business_stage p = "mature" ↔
      7 < p.business_age ∧ 2000000 ≤ p.annual_revenue) ∧
    (determine_business_stage p = "growth" ↔
      ¬(p.business_age ≤ 2 ∧ p.annual_revenue < 500000) ∧
        (p.business_age ≤ 7 ∨ p.annual_revenue < 2000000)) := by
  simp only [determine_business_stage]
  split_ifs with h1 h2
  · refine ⟨by simp [h1], ?_, ?_⟩
    · constructor
      · intro h; simp at h
      · rintro ⟨ha, _⟩; exact absurd ha (by linarith [h1.1])
    · constructor
      · intro h; simp at h
      · rintro ⟨hn, _⟩; exact absurd h1 hn
  · refine ⟨?_, ?_, by simp [h1, h2]⟩
    · constructor
      · intro h; simp at h
      · intro h; exact absurd h h1
    · constructor
      · intro h; simp at h
      · rintro ⟨ha, hr⟩
        rcases h2 with h2 | h2
        · exact absurd h2 (by linarith)
        · exact absurd h2 (by linarith)
  · push_neg at h2
    refine ⟨?_, by simp [h1, h2.1, h2.2], ?_⟩
    · constructor
      · intro h; simp at h
      · intro h; exact absurd h h1
    · constructor
      · intro h; simp at h
      · rintro ⟨_, hor⟩
        rcases hor with ha | hr
        · exact absurd ha (by linarith [h2.1])
        · exact absurd hr (by linarith [h2.2])

/-- C9 concrete inputs: the worked example profile against the Barclays
catalog entry. -/
def c9_profile : BusinessProfile :=
  { company_name := "TechStart Solutions Ltd", sector := "technology"
  , annual_revenue := 450000, employees := 12, location := "london"
  , business_age := 3, funding_amount := 250000
  , financials := { profit_margin := some 0.15, cash_flow_months := some 4
                  , debt_to_equity := some 0.8 } }

def c9_source : FundingSource := funding_database.head (by with_unfolding_all decide)

def c9_intel : BusinessIntelligence := analyze_business c9_profile

def c9_score : MatchScore := calculate_match_score c9_intel c9_source c9_profile

set_option maxRecDepth 10000

/-- C9: every match result reports
`success_probability = 0.7·approval_probability + 0.3·compatibility` over its
own score breakdown, and the reported value is a different quantity from the
ranking `overall_score` (they differ on a concrete catalog match). -/
theorem C9_success_probability :
    (∀ (source : FundingSource) (ms : MatchScore) (i : BusinessIntelligence),
      (create_match_result source ms i).success_probability =
        0.7 * ms.approval_probability + 0.3 * ms.compatibility) ∧
    (create_match_result c9_source c9_score c9_intel).success_probability ≠
      (create_match_result c9_source c9_score c9_intel).overall_score := by
  constructor
  · intro source ms i
    show ms.approval_probability * 0.7 + ms.compatibility * 0.3 = _
    ring
  · with_unfolding_all decide

/-- C10: for every catalog source, the market-appetite annotation computed by
`_apply_market_conditions` is `"supportive"` exactly for the
`government_funding` category and `"neutral"` for every other category,
because the appetite table is keyed by the category's first
underscore-separated token and only `"government"` is a key of the table. -/
theorem C10_market_appetite (s : FundingSource) (hs : s ∈ funding_database) :
    market_appetite_of s =
      (if s.category = "government_funding" then "supportive" else "neutral") := by
  fin_cases hs <;> with_unfolding_all decide

/-- C10 witness: the Innovate UK entry (category `government_funding`) gets
`"supportive"`. -/
theorem C10_witness :
    market_appetite_of (funding_database.get ⟨6, by with_unfolding_all decide⟩) =
      (if (funding_database.get
            ⟨6, by with_unfolding_all decide⟩).category = "government_funding"
        then "supportive" else "neutral") :=
  C10_market_appetite _
    (List.get_mem funding_database 6 (by with_unfolding_all decide))

/-- If a source's debt-ratio bound is at least 1 and the intelligence record
yields the default debt ratio of 1.0, `_meets_financial_requirements` reduces
to the funding-readiness threshold check. -/
theorem meets_financial_of_debt_default (s : FundingSource)
    (i : BusinessIntelligence) (h1 : (1.0 : ℚ) ≤ s.max_debt_ratio.getD 5.0)
    (h2 : i.fiGetNum "debt_to_equity" 1.0 = 1.0) :
    meets_financial_requirements s i =
      decide (i.funding_readiness ≥
        (if s.type_ = "bank_loan" ∨ s.type_ = "asset_finance" then (0.4 : ℚ)
          else 0.6)) := by
  unfold meets_financial_requirements
  rw [h2, if_neg (by simp only [not_lt]; exact h1)]

/-- C7: the Analyzer (normal and fallback paths alike) never writes a
`debt_to_equity` key into `funding_indicators`, so the debt branch of the
Researcher's `_meets_financial_requirements` always reads the default 1.0;
every catalog source's debt-ratio bound (explicit 2.5 or defaulted 5.0) is at
least 1.0, so the check never rejects and the whole predicate reduces to the
funding-readiness threshold. -/
theorem C7_debt_ratio_vacuous (p : BusinessProfile) (s : FundingSource)
    (hs : s ∈ funding_database) :
    tableGet (analyze_business p).funding_indicators "debt_to_equity" = none ∧
    tableGet (create_fallback_analysis p).funding_indicators "debt_to_equity" = none ∧
    (1.0 : ℚ) ≤ s.max_debt_ratio.getD 5.0 ∧
    meets_financial_requirements s (analyze_business p) =
      decide ((analyze_business p).funding_readiness ≥
        (if s.type_ = "bank_loan" ∨ s.type_ = "asset_finance" then (0.4 : ℚ)
          else 0.6)) := by
  have hbound : (1.0 : ℚ) ≤ s.max_debt_ratio.getD 5.0 := by
    fin_cases hs <;> with_unfolding_all decide
  refine ⟨rfl, rfl, hbound, ?_⟩
  exact meets_financial_of_debt_default s (analyze_business p) hbound rfl

/-- C7 witness: the Barclays entry against the worked example profile. -/
theorem C7_witness :
    tableGet (analyze_business c9_profile).funding_indicators "debt_to_equity" =
        none ∧
    tableGet (create_fallback_analysis c9_profile).funding_indicators
        "debt_to_equity" = none ∧
    (1.0 : ℚ) ≤ (funding_database.head
        (by with_unfolding_all decide)).max_debt_ratio.getD 5.0 ∧
    meets_financial_requirements (funding_database.head (by with_unfolding_all decide))
        (analyze_business c9_profile) =
      decide ((analyze_business c9_profile).funding_readiness ≥
        (if (funding_database.head (by with_unfolding_all decide)).type_ = "bank_loan" ∨
            (funding_database.head
              (by with_unfolding_all decide)).type_ = "asset_finance"
          then (0.4 : ℚ) else 0.6)) :=
  C7_debt_ratio_vacuous c9_profile _ (List.head_mem _)

/-- Input for C3: `company_name` is present but `null`; every other required
field is present and well-typed, so `_validate_input` would have rejected the
record with a structured error had it been reached. -/
def c3_input : Input :=
  [ ("company_name", JValue.jnull), ("sector", JValue.jstr "technology")
  , ("annual_revenue", JValue.jnum 450000), ("employees", JValue.jnum 12)
  , ("location", JValue.jstr "london"), ("funding_amount", JValue.jnum 250000) ]

/-- C3: the claim (no exception ever propagates, even for a null
`company_name`) is contradicted by the code: the `business_id` expression
`business_data.get('company_name', 'unknown').replace(' ', '_').lower()` runs
*before* the `try` block, so a null `company_name` raises `AttributeError`
straight to the caller instead of producing an envelope. -/
theorem C3_null_company_name_raises :
    process_recommendation_request c3_input =
      Except.error "AttributeError: object has no attribute replace" := by
  with_unfolding_all rfl

/-- C8: with the sector, trading-years, revenue and geographic conditions all
satisfied, the eligibility filter's amount bounds are inclusive: a
`funding_amount` equal to the source's minimum or maximum is retained, and one
unit below the minimum or above the maximum is rejected. -/
theorem C8_amount_boundaries (s : FundingSource) (hs : s ∈ funding_database)
    (p : BusinessProfile)
    (hsec : (s.sectors == ["all"] || s.sectors.contains p.sector) = true)
    (hexc : p.sector ∉ s.excluded_sectors)
    (hymin : s.min_trading_years.getD 0 ≤ p.business_age)
    (hymax : p.business_age ≤ s.max_trading_years.getD 999)
    (hrev : s.min_annual_revenue.getD 0 ≤ p.annual_revenue)
    (hgeo : (s.geographic_requirement.isEmpty ||
      s.geographic_requirement.contains p.location.toLower) = true) :
    s ∈ filter_by_eligibility { p with funding_amount := s.amount_min } ∧
    s ∈ filter_by_eligibility { p with funding_amount := s.amount_max } ∧
    s ∉ filter_by_eligibility { p with funding_amount := s.amount_min - 1 } ∧
    s ∉ filter_by_eligibility { p with funding_amount := s.amount_max + 1 } := by
  have hminmax : s.amount_min ≤ s.amount_max := by
    fin_cases hs <;> with_unfolding_all decide
  have hsmem : s ∈ funding_database := hs
  refine ⟨?_, ?_, ?_, ?_⟩
  · refine List.mem_filter.mpr ⟨hsmem, ?_⟩
    simp only [eligible_source, Bool.and_eq_true, decide_eq_true_eq]
    exact ⟨⟨⟨⟨⟨le_refl _, hminmax⟩, hsec, by simp [hexc]⟩, hymin, hymax⟩, hrev⟩, hgeo⟩
  · refine List.mem_filter.mpr ⟨hsmem, ?_⟩
    simp only [eligible_source, Bool.and_eq_true, decide_eq_true_eq]
    exact ⟨⟨⟨⟨⟨hminmax, le_refl _⟩, hsec, by simp [hexc]⟩, hymin, hymax⟩, hrev⟩, hgeo⟩
  · intro hmem
    have := (List.mem_filter.mp hmem).2
    simp only [eligible_source, Bool.and_eq_true, decide_eq_true_eq] at this
    have hle : s.amount_min ≤ s.amount_min - 1 := this.1.1.1.1.1
    linarith
  · intro hmem
    have := (List.mem_filter.mp hmem).2
    simp only [eligible_source, Bool.and_eq_true, decide_eq_true_eq] at this
    have hle : s.amount_max + 1 ≤ s.amount_max := this.1.1.1.1.2
    linarith

/-- Profile used to instantiate C8 at the Barclays entry. -/
def c8_profile : BusinessProfile :=
  { company_name := "Boundary Test Ltd", sector := "technology"
  , annual_revenue := 100000, employees := 5, location := "london"
  , business_age := 4, funding_amount := 0 }

/-- C8 witness: the Barclays entry (range £5,000–£250,000) against a profile
meeting all its other criteria. -/
theorem C8_witness :
    (funding_database.head (by with_unfolding_all decide)) ∈
      filter_by_eligibility { c8_profile with
        funding_amount :=
          (funding_database.head (by with_unfolding_all decide)).amount_min } ∧
    (funding_database.head (by with_unfolding_all decide)) ∈
      filter_by_eligibility { c8_profile with
        funding_amount :=
          (funding_database.head (by with_unfolding_all decide)).amount_max } ∧
    (funding_database.head (by with_unfolding_all decide)) ∉
      filter_by_eligibility { c8_profile with
        funding_amount :=
          (funding_database.head (by with_unfolding_all decide)).amount_min - 1 } ∧
    (funding_database.head (by with_unfolding_all decide)) ∉
      filter_by_eligibility { c8_profile with
        funding_amount :=
          (funding_database.head (by with_unfolding_all decide)).amount_max + 1 } :=
  C8_amount_boundaries _ (List.head_mem _) c8_profile
    (by with_unfolding_all decide) (by with_unfolding_all decide)
    (by with_unfolding_all decide) (by with_unfolding_all decide)
    (by with_unfolding_all decide) (by with_unfolding_all decide)

/-- C5 amended: the envelope's `confidence_level` is the band of the mean
`match_score` on the success path (hence `"none"` for an empty list there),
and the validation-failure path also reports `"none"`; but the
exception-failure path reports `"low"` with an empty recommendations list,
not `"none"` as the claim states. -/
theorem C5_amended (data : Input) (env : MainEnvelope)
    (h : process_recommendation_request data = Except.ok env) :
    (env.success = true →
      env.confidence_level = calculate_confidence_level env.recommendations) ∧
    (env.success = false →
      env.recommendations = [] ∧
        (env.confidence_level = "none" ∨ env.confidence_level = "low")) := by
  unfold process_recommendation_request at h
  split at h
  · simp at h
  · split at h
    · rw [Except.ok.injEq] at h
      subst h
      exact ⟨fun hsucc => by simp [create_error_result] at hsucc,
        fun _ => ⟨rfl, Or.inl rfl⟩⟩
    · split at h
      · rw [Except.ok.injEq] at h
        subst h
        exact ⟨fun _ => rfl, fun hfail => by simp at hfail⟩
      · rw [Except.ok.injEq] at h
        subst h
        exact ⟨fun hsucc => by simp at hsucc, fun _ => ⟨rfl, Or.inr rfl⟩⟩

/-- Input for the C5 counterexample: validation passes, but
`float("abc")` raises inside the pipeline. -/
def c5_input : Input :=
  [ ("company_name", JValue.jstr "Acme Ltd"), ("sector", JValue.jstr "technology")
  , ("annual_revenue", JValue.jstr "abc"), ("employees", JValue.jnum 12)
  , ("location", JValue.jstr "london"), ("funding_amount", JValue.jnum 250000) ]

/-- The envelope the orchestrator produces for `c5_input`. -/
def c5_envelope : MainEnvelope :=
  { business_id := "acme_ltd", recommendations := [], total_processed := 0
  , confidence_level := "low", success := false
  , errors := ["ValueError: could not convert string to float"] }

/-- C5 counterexample: a response produced on the exception-failure path has
an empty recommendations list but confidence level `"low"`, not `"none"` as
the claim requires of every empty-recommendations response. -/
theorem C5_counterexample :
    process_recommendation_request c5_input = Except.ok c5_envelope ∧
      c5_envelope.recommendations = [] ∧ c5_envelope.confidence_level ≠ "none" :=
  ⟨by with_unfolding_all rfl, rfl, by decide⟩

/-- C5 witness: the amended statement instantiated at `c5_input`. -/
theorem C5_amended_witness :
    (c5_envelope.success = true →
      c5_envelope.confidence_level =
        calculate_confidence_level c5_envelope.recommendations) ∧
    (c5_envelope.success = false →
      c5_envelope.recommendations = [] ∧
        (c5_envelope.confidence_level = "none" ∨
          c5_envelope.confidence_level = "low")) :=
  C5_amended c5_input c5_envelope (by with_unfolding_all rfl)

/-- Every element the diversity loop emits comes from its input list. -/
theorem diversify_go_subset (l : List MatchResult) :
    ∀ (counts : String → Nat), diversify_go l counts ⊆ l := by
  induction l with
  | nil => intro counts; simp [diversify_go]
  | cons m rest ih =>
    intro counts
    simp only [diversify_go]
    split
    · exact List.cons_subset_cons m (ih _)
    · exact (ih counts).trans (List.subset_cons_self m rest)

/-- The diversity loop admits at most `DIVERSITY_REQUIREMENT - counts t`
matches of any funding type `t`. -/
theorem diversify_go_countP (l : List MatchResult) :
    ∀ (counts : String → Nat) (t : String),
      (diversify_go l counts).countP (fun m => m.funding_type == t) ≤
        DIVERSITY_REQUIREMENT - counts t := by
  induction l with
  | nil => intro counts t; simp [diversify_go]
  | cons m rest ih =>
    intro counts t
    simp only [diversify_go]
    split
    case isTrue hlt =>
      rw [List.countP_cons]
      by_cases ht : m.funding_type = t
      · subst ht
        have hrec := ih (fun t' => if t' = m.funding_type then
          counts m.funding_type + 1 else counts t') m.funding_type
        rw [if_pos rfl] at hrec
        simp only [beq_self_eq_true, if_true]
        omega
      · have hbeq : (m.funding_type == t) = false := beq_eq_false_iff_ne.mpr ht
        rw [hbeq]
        have hrec := ih (fun t' => if t' = m.funding_type then
          counts m.funding_type + 1 else counts t') t
        rw [if_neg (fun hh => ht hh.symm)] at hrec
        simpa using hrec
    case isFalse => exact ih counts t

/-- C2: the Matcher's normal path — qualifying matches sorted by descending
overall score, greedily admitted with at most `DIVERSITY_REQUIREMENT` (2) per
funding type, then truncated to `MAX_RECOMMENDATIONS` (5) — always returns at
most 5 results with no funding type appearing more than twice. -/
theorem C2_diversity_and_length (intelligence : BusinessIntelligence)
    (funding_sources : List FundingSource) (profile : BusinessProfile) :
    (generate_matches intelligence funding_sources profile).length ≤
      MAX_RECOMMENDATIONS ∧
    ∀ t : String,
      (generate_matches intelligence funding_sources profile).countP
        (fun m => m.funding_type == t) ≤ DIVERSITY_REQUIREMENT := by
  unfold generate_matches
  constructor
  · rw [List.length_map, List.length_take]
    exact min_le_left _ _
  · intro t
    rw [List.countP_map]
    have hcomp : ((fun m => m.funding_type == t) ∘ match_result_to_dict) =
        (fun m : MatchResult => m.funding_type == t) := rfl
    rw [hcomp]
    refine le_trans (((List.take_sublist _ _).countP_le _)) ?_
    unfold rank_and_diversify_matches
    simpa using diversify_go_countP _ (fun _ => 0) t

/-! ### C1: score bounds -/

theorem le_pymax_right (a b : ℚ) : b ≤ pymax a b := by
  unfold pymax; split <;> linarith

theorem pymin_one_bounds {x : ℚ} (hx : 0 ≤ x) :
    0 ≤ pymin x 1.0 ∧ pymin x 1.0 ≤ 1 := by
  have h1 : (1.0 : ℚ) = 1 := by norm_num
  exact ⟨pymin_nonneg hx (by norm_num), h1 ▸ pymin_le_right x 1.0⟩

theorem creditworthiness_bounds {pm cf rev : ℚ} (hpm : 0 ≤ pm) (hcf : 0 ≤ cf)
    (hrev : 0 ≤ rev) :
    0 ≤ calculate_creditworthiness pm cf rev ∧
      calculate_creditworthiness pm cf rev ≤ 1 := by
  unfold calculate_creditworthiness
  obtain ⟨h1, h1u⟩ := pymin_one_bounds (x := pm * 10) (by nlinarith)
  obtain ⟨h2, h2u⟩ := pymin_one_bounds (x := cf / 6) (by positivity)
  obtain ⟨h3, h3u⟩ := pymin_one_bounds (x := rev / 1000000) (by positivity)
  constructor <;> nlinarith

theorem repayment_capacity_bounds {rev pm : ℚ} (hrev : 0 ≤ rev) (hpm : 0 ≤ pm) :
    0 ≤ calculate_repayment_capacity rev pm ∧
      calculate_repayment_capacity rev pm ≤ 1 := by
  unfold calculate_repayment_capacity
  exact pymin_one_bounds (by positivity)

theorem funding_readiness_bounds (p : BusinessProfile) :
    0 ≤ (analyze_business p).funding_readiness ∧
      (analyze_business p).funding_readiness ≤ 1 := by
  show 0 ≤ calculate_funding_readiness _ _ _ ∧ _
  unfold calculate_funding_readiness
  have h0 : (0.0 : ℚ) = 0 := by norm_num
  refine pymin_one_bounds ?_
  calc (0 : ℚ) ≤ 0.0 := by norm_num
    _ ≤ pymax _ 0.0 := le_pymax_right _ _

theorem analyze_repayment_eq (p : BusinessProfile) :
    (analyze_business p).fiNum "repayment_capacity" =
      calculate_repayment_capacity p.annual_revenue
        (p.financials.profit_margin.getD 0.1) := rfl

theorem analyze_management_eq (p : BusinessProfile) :
    (analyze_business p).fiNum "management_strength" = 0.75 := rfl

theorem assess_sector_compatibility_nonneg (s : FundingSource) (sec : String) :
    0 ≤ assess_sector_compatibility s sec := by
  unfold assess_sector_compatibility; split_ifs <;> norm_num

theorem assess_stage_compatibility_nonneg (i : BusinessIntelligence)
    (s : FundingSource) : 0 ≤ assess_stage_compatibility i s := by
  unfold assess_stage_compatibility
  apply tableGet_getD_prop (P := fun q : ℚ => 0 ≤ q) _ _ _ (by norm_num)
  apply tableGet_getD_prop
      (P := fun tbl : List (String × ℚ) => ∀ e ∈ tbl, 0 ≤ e.2)
  · simp
  · with_unfolding_all decide

theorem assess_geographic_compatibility_nonneg (s : FundingSource) (loc : String) :
    0 ≤ assess_geographic_compatibility s loc := by
  unfold assess_geographic_compatibility; split_ifs <;> norm_num

theorem assess_amount_compatibility_nonneg (s : FundingSource) (amount : ℚ) :
    0 ≤ assess_amount_compatibility s amount := by
  simp only [assess_amount_compatibility]; split_ifs <;> norm_num

theorem assess_historical_success_rate_nonneg (i : BusinessIntelligence)
    (s : FundingSource) (hr : 0 ≤ i.funding_readiness)
    (hc : 0 ≤ i.creditworthiness) :
    0 ≤ assess_historical_success_rate i s := by
  unfold assess_historical_success_rate
  refine (pymin_one_bounds ?_).1
  have hbase : (0 : ℚ) ≤ (tableGet
      [ ("bank_loan", 0.65), ("asset_finance", 0.75), ("angel_investment", 0.25)
      , ("venture_capital", 0.15), ("crowdfunding", 0.45)
      , ("government_grant", 0.35), ("family_office", 0.40) ] s.type_).getD 0.5 := by
    apply tableGet_getD_prop (P := fun q : ℚ => 0 ≤ q)
    · norm_num
    · with_unfolding_all decide
  have h1 : (0 : ℚ) ≤ 0.5 + 0.5 * i.funding_readiness := by nlinarith
  have h2 : (0 : ℚ) ≤ 0.5 + 0.5 * i.creditworthiness := by nlinarith
  positivity

theorem assess_current_appetite_nonneg (s : FundingSource) :
    0 ≤ assess_current_appetite s := by
  unfold assess_current_appetite
  apply tableGet_getD_prop (P := fun q : ℚ => 0 ≤ q)
  · norm_num
  · with_unfolding_all decide

theorem assess_financial_alignment_nonneg (i : BusinessIntelligence)
    (hc : 0 ≤ i.creditworthiness) (hrp : 0 ≤ i.fiNum "repayment_capacity") :
    0 ≤ assess_financial_alignment i := by
  unfold assess_financial_alignment; nlinarith

theorem assess_management_fit_nonneg (i : BusinessIntelligence)
    (s : FundingSource) (hm : 0 ≤ i.fiNum "management_strength") :
    0 ≤ assess_management_fit i s := by
  unfold assess_management_fit; split_ifs <;> nlinarith

theorem assess_market_conditions_nonneg (s : FundingSource) :
    0 ≤ assess_market_conditions s := by
  unfold assess_market_conditions
  apply tableGet_getD_prop (P := fun q : ℚ => 0 ≤ q)
  · norm_num
  · with_unfolding_all decide

theorem assess_commission_potential_nonneg (s : FundingSource)
    (p : BusinessProfile) (hcmin : 0 ≤ s.commission_min)
    (hcmax : 0 ≤ s.commission_max) (hfund : 0 ≤ p.funding_amount) :
    0 ≤ assess_commission_potential s p := by
  unfold assess_commission_potential
  refine (pymin_one_bounds ?_).1
  positivity

theorem assess_processing_efficiency_nonneg (s : FundingSource) :
    0 ≤ assess_processing_efficiency s := by
  simp only [assess_processing_efficiency]
  split
  · split
    · calc (0 : ℚ) ≤ 0.1 := by norm_num
        _ ≤ pymax 0.1 _ := le_pymax_left _ _
    · norm_num
  · norm_num

theorem assess_relationship_quality_nonneg (s : FundingSource) :
    0 ≤ assess_relationship_quality s := by
  unfold assess_relationship_quality; split_ifs <;> norm_num

theorem assess_application_complexity_nonneg (s : FundingSource) :
    0 ≤ assess_application_complexity s := by
  unfold assess_application_complexity
  apply tableGet_getD_prop (P := fun q : ℚ => 0 ≤ q)
  · norm_num
  · with_unfolding_all decide

theorem assess_longterm_potential_nonneg (s : FundingSource) :
    0 ≤ assess_longterm_potential s := by
  unfold assess_longterm_potential; split_ifs <;> norm_num

theorem assess_reputation_value_nonneg (s : FundingSource) :
    0 ≤ assess_reputation_value s := by
  simp only [assess_reputation_value]
  split
  · next e heq =>
      have hmem := List.mem_of_find?_eq_some heq
      fin_cases hmem <;> norm_num
  · norm_num

theorem assess_followon_potential_nonneg (s : FundingSource) :
    0 ≤ assess_followon_potential s := by
  unfold assess_followon_potential; split_ifs <;> norm_num

theorem assess_network_benefits_nonneg (s : FundingSource) (p : BusinessProfile) :
    0 ≤ assess_network_benefits s p := by
  unfold assess_network_benefits; split_ifs <;> norm_num

theorem compatibility_score_bounds (i : BusinessIntelligence) (s : FundingSource)
    (p : BusinessProfile) :
    0 ≤ calculate_compatibility_score i s p ∧
      calculate_compatibility_score i s p ≤ 1 := by
  unfold calculate_compatibility_score
  refine pymin_one_bounds ?_
  have h1 := assess_sector_compatibility_nonneg s p.sector
  have h2 := assess_stage_compatibility_nonneg i s
  have h3 := assess_geographic_compatibility_nonneg s p.location
  have h4 := assess_amount_compatibility_nonneg s p.funding_amount
  have h5 : (0 : ℚ) ≤ assess_compliance_compatibility := by
    unfold assess_compliance_compatibility; norm_num
  nlinarith

theorem approval_probability_bounds (i : BusinessIntelligence) (s : FundingSource)
    (hr : 0 ≤ i.funding_readiness) (hc : 0 ≤ i.creditworthiness)
    (hrp : 0 ≤ i.fiNum "repayment_capacity")
    (hm : 0 ≤ i.fiNum "management_strength") :
    0 ≤ calculate_approval_probability i s ∧
      calculate_approval_probability i s ≤ 1 := by
  unfold calculate_approval_probability
  refine pymin_one_bounds ?_
  have h1 := assess_historical_success_rate_nonneg i s hr hc
  have h2 := assess_current_appetite_nonneg s
  have h3 := assess_financial_alignment_nonneg i hc hrp
  have h4 := assess_management_fit_nonneg i s hm
  have h5 := assess_market_conditions_nonneg s
  nlinarith

theorem commercial_value_bounds (s : FundingSource) (p : BusinessProfile)
    (hcmin : 0 ≤ s.commission_min) (hcmax : 0 ≤ s.commission_max)
    (hfund : 0 ≤ p.funding_amount) :
    0 ≤ calculate_commercial_value s p ∧ calculate_commercial_value s p ≤ 1 := by
  unfold calculate_commercial_value
  refine pymin_one_bounds ?_
  have h1 := assess_commission_potential_nonneg s p hcmin hcmax hfund
  have h2 := assess_processing_efficiency_nonneg s
  have h3 := assess_relationship_quality_nonneg s
  have h4 := assess_application_complexity_nonneg s
  nlinarith

theorem strategic_fit_bounds (s : FundingSource) (p : BusinessProfile) :
    0 ≤ calculate_strategic_fit s p ∧ calculate_strategic_fit s p ≤ 1 := by
  unfold calculate_strategic_fit
  refine pymin_one_bounds ?_
  have h1 := assess_longterm_potential_nonneg s
  have h2 : (0 : ℚ) ≤ assess_portfolio_fit := by
    unfold assess_portfolio_fit; norm_num
  have h3 := assess_reputation_value_nonneg s
  have h4 := assess_followon_potential_nonneg s
  have h5 := assess_network_benefits_nonneg s p
  nlinarith

/-- C1 amended: for valid profiles whose `profit_margin` and
`cash_flow_months` (explicit or defaulted) are non-negative — and any source
with non-negative commission bounds — the Analyzer's `creditworthiness` and
`funding_readiness` and all five components of the Matcher's score breakdown
lie in [0, 1].  (`funding_readiness` is clamped and lies in [0, 1] even
without these hypotheses; `creditworthiness` is not, see the
counterexample.) -/
theorem C1_amended (p : BusinessProfile) (s : FundingSource)
    (hrev : 0 ≤ p.annual_revenue) (hfund : 0 ≤ p.funding_amount)
    (hpm : 0 ≤ p.financials.profit_margin.getD 0.1)
    (hcf : 0 ≤ p.financials.cash_flow_months.getD 2)
    (hcmin : 0 ≤ s.commission_min) (hcmax : 0 ≤ s.commission_max) :
    (0 ≤ (analyze_business p).creditworthiness ∧
      (analyze_business p).creditworthiness ≤ 1) ∧
    (0 ≤ (analyze_business p).funding_readiness ∧
      (analyze_business p).funding_readiness ≤ 1) ∧
    (0 ≤ (calculate_match_score (analyze_business p) s p).compatibility ∧
      (calculate_match_score (analyze_business p) s p).compatibility ≤ 1) ∧
    (0 ≤ (calculate_match_score (analyze_business p) s p).approval_probability ∧
      (calculate_match_score (analyze_business p) s p).approval_probability ≤ 1) ∧
    (0 ≤ (calculate_match_score (analyze_business p) s p).commercial_value ∧
      (calculate_match_score (analyze_business p) s p).commercial_value ≤ 1) ∧
    (0 ≤ (calculate_match_score (analyze_business p) s p).strategic_fit ∧
      (calculate_match_score (analyze_business p) s p).strategic_fit ≤ 1) ∧
    (0 ≤ (calculate_match_score (analyze_business p) s p).overall_score ∧
      (calculate_match_score (analyze_business p) s p).overall_score ≤ 1) := by
  have hcred : 0 ≤ (analyze_business p).creditworthiness ∧
      (analyze_business p).creditworthiness ≤ 1 :=
    creditworthiness_bounds hpm hcf hrev
  have hready := funding_readiness_bounds p
  have hrp : 0 ≤ (analyze_business p).fiNum "repayment_capacity" := by
    rw [analyze_repayment_eq]
    exact (repayment_capacity_bounds hrev hpm).1
  have hm : 0 ≤ (analyze_business p).fiNum "management_strength" := by
    rw [analyze_management_eq]; norm_num
  have hcompat := compatibility_score_bounds (analyze_business p) s p
  have happrov := approval_probability_bounds (analyze_business p) s
    hready.1 hcred.1 hrp hm
  have hcomm := commercial_value_bounds s p hcmin hcmax hfund
  have hstrat := strategic_fit_bounds s p
  refine ⟨hcred, hready, hcompat, happrov, hcomm, hstrat, ?_⟩
  show 0 ≤ pymin _ 1.0 ∧ pymin _ 1.0 ≤ 1
  refine pymin_one_bounds ?_
  unfold weight_compatibility weight_approval_probability weight_commercial_value
    weight_strategic_fit
  nlinarith [hcompat.1, happrov.1, hcomm.1, hstrat.1]

/-- Profile for the C1 counterexample: a valid profile whose financials carry
a negative profit margin. -/
def c1_cex_profile : BusinessProfile :=
  { company_name := "LossMaking Ltd", sector := "technology"
  , annual_revenue := 0, employees := 1, location := "london"
  , business_age := 2, funding_amount := 50000
  , financials := { profit_margin := some (-1), cash_flow_months := some 2
                  , debt_to_equity := none } }

/-- C1 counterexample: `_calculate_creditworthiness` has no lower clamp, so a
profile with `profit_margin = -1.0` yields creditworthiness −3.9, outside
[0, 1], refuting the claim for profiles with negative financials. -/
theorem C1_counterexample :
    (analyze_business c1_cex_profile).creditworthiness < 0 := by
  with_unfolding_all decide

/-- C1 witness: the amended bounds instantiated at the worked example profile
and the Barclays entry. -/
theorem C1_witness :
    (0 ≤ (analyze_business c9_profile).creditworthiness ∧
      (analyze_business c9_profile).creditworthiness ≤ 1) ∧
    (0 ≤ (analyze_business c9_profile).funding_readiness ∧
      (analyze_business c9_profile).funding_readiness ≤ 1) ∧
    (0 ≤ (calculate_match_score (analyze_business c9_profile) c9_source
        c9_profile).compatibility ∧
      (calculate_match_score (analyze_business c9_profile) c9_source
        c9_profile).compatibility ≤ 1) ∧
    (0 ≤ (calculate_match_score (analyze_business c9_profile) c9_source
        c9_profile).approval_probability ∧
      (calculate_match_score (analyze_business c9_profile) c9_source
        c9_profile).approval_probability ≤ 1) ∧
    (0 ≤ (calculate_match_score (analyze_business c9_profile) c9_source
        c9_profile).commercial_value ∧
      (calculate_match_score (analyze_business c9_profile) c9_source
        c9_profile).commercial_value ≤ 1) ∧
    (0 ≤ (calculate_match_score (analyze_business c9_profile) c9_source
        c9_profile).strategic_fit ∧
      (calculate_match_score (analyze_business c9_profile) c9_source
        c9_profile).strategic_fit ≤ 1) ∧
    (0 ≤ (calculate_match_score (analyze_business c9_profile) c9_source
        c9_profile).overall_score ∧
      (calculate_match_score (analyze_business c9_profile) c9_source
        c9_profile).overall_score ≤ 1) :=
  C1_amended c9_profile c9_source (by with_unfolding_all decide)
    (by with_unfolding_all decide) (by with_unfolding_all decide)
    (by with_unfolding_all decide) (by with_unfolding_all decide)
    (by with_unfolding_all decide)

/-! ### C4: eligibility monotonicity -/

/-- Every catalog timeline parses, so `_adjust_timeline` cannot raise on a
catalog source, whatever the appetite and sector status. -/
theorem adjust_timeline_isSome_of_db (s : FundingSource)
    (hs : s ∈ funding_database) (a b : String) :
    (adjust_timeline s.approval_timeline a b).isSome = true := by
  fin_cases hs <;> rfl

/-- On a list of sources whose timelines parse, `_apply_market_conditions`
succeeds and returns annotated copies in order, preserving `source_id`. -/
theorem apply_market_conditions_ids (l : List FundingSource)
    (h : ∀ s ∈ l, ∀ a b,
      (adjust_timeline s.approval_timeline a b).isSome = true) :
    ∃ l', apply_market_conditions l = some l' ∧
      l'.map (·.source_id) = l.map (·.source_id) := by
  induction l with
  | nil => exact ⟨[], rfl, rfl⟩
  | cons s rest ih =>
    obtain ⟨t, ht⟩ := Option.isSome_iff_exists.mp
      (h s (List.mem_cons_self s rest) (market_appetite_of s)
        (get_sector_market_status s))
    obtain ⟨l', hl', hids⟩ := ih (fun x hx a b => h x (List.mem_cons_of_mem s hx) a b)
    refine ⟨({ s with
          market_appetite := some (market_appetite_of s),
          sector_market_status := some (get_sector_market_status s),
          market_adjusted_timeline := some t }) :: l', ?_, ?_⟩
    · simp only [apply_market_conditions]
      rw [ht, hl']
      rfl
    · simp [hids]

/-- Every match emitted by the Matcher's normal path carries the `source_id`
of one of its input sources. -/
theorem generate_matches_ids (i : BusinessIntelligence)
    (srcs : List FundingSource) (p : BusinessProfile) :
    ∀ m ∈ generate_matches i srcs p, ∃ s ∈ srcs, m.source_id = s.source_id := by
  intro m hm
  unfold generate_matches at hm
  obtain ⟨mr, hmr_take, rfl⟩ := List.mem_map.mp hm
  have hmr_div : mr ∈ rank_and_diversify_matches _ :=
    (List.take_sublist _ _).subset hmr_take
  unfold rank_and_diversify_matches at hmr_div
  have hmr_sorted := diversify_go_subset _ _ hmr_div
  have hmr_matches := (List.perm_insertionSort _ _).mem_iff.mp hmr_sorted
  obtain ⟨src, hsrc, heq⟩ := List.mem_filterMap.mp hmr_matches
  refine ⟨src, hsrc, ?_⟩
  simp only [ge_iff_le] at heq
  split at heq
  · cases heq
    rfl
  · cases heq

/-- Every source the Researcher's pipeline emits is a catalog entry that
passed the eligibility filter (the later stages only filter, annotate and
reorder). -/
theorem research_funding_sources_ids (p : BusinessProfile)
    (i : BusinessIntelligence) :
    ∀ s' ∈ research_funding_sources p i,
      ∃ s ∈ funding_database,
        eligible_source p s = true ∧ s'.source_id = s.source_id := by
  intro s' hs'
  have hl2sub : ∀ x ∈ filter_by_intelligence (filter_by_eligibility p) i,
      x ∈ funding_database ∧ eligible_source p x = true := by
    intro x hx
    have hx1 : x ∈ filter_by_eligibility p := (List.mem_filter.mp hx).1
    exact ⟨(List.mem_filter.mp hx1).1, (List.mem_filter.mp hx1).2⟩
  have hsome : ∀ x ∈ filter_by_intelligence (filter_by_eligibility p) i,
      ∀ a b, (adjust_timeline x.approval_timeline a b).isSome = true :=
    fun x hx a b => adjust_timeline_isSome_of_db x (hl2sub x hx).1 a b
  obtain ⟨l', hl', hids⟩ := apply_market_conditions_ids _ hsome
  simp only [research_funding_sources, hl'] at hs'
  have hmem : s' ∈ l' := by
    unfold prioritize_by_availability at hs'
    exact (List.perm_insertionSort _ _).mem_iff.mp hs'
  have hidmem : s'.source_id ∈ l'.map (·.source_id) :=
    List.mem_map_of_mem _ hmem
  rw [hids] at hidmem
  obtain ⟨x, hx, hxid⟩ := List.mem_map.mp hidmem
  exact ⟨x, (hl2sub x hx).1, (hl2sub x hx).2, hxid.symm⟩

/-- The nine catalog `source_id`s are pairwise distinct. -/
theorem db_ids_nodup : (funding_database.map (·.source_id)).Nodup := by
  with_unfolding_all decide

/-- Catalog `source_id`s identify their entries uniquely. -/
theorem db_source_id_inj :
    ∀ a ∈ funding_database, ∀ b ∈ funding_database,
      a.source_id = b.source_id → a = b :=
  fun _ ha _ hb => List.inj_on_of_nodup_map db_ids_nodup ha hb

/-- C4: a catalog source rejected by the eligibility filter never appears in
the recommendations produced by the non-fallback pipeline
(Researcher stages 2–4 and the Matcher only remove, annotate or reorder
stage 1's output), regardless of the business intelligence — and hence of
how the source would have scored. -/
theorem C4_eligibility_monotonicity (p : BusinessProfile)
    (i : BusinessIntelligence) (s : FundingSource) (hs : s ∈ funding_database)
    (hrej : eligible_source p s = false) :
    s.source_id ∉
      (generate_matches i (research_funding_sources p i) p).map
        (·.source_id) := by
  intro hmem
  obtain ⟨m, hm, hmid⟩ := List.mem_map.mp hmem
  obtain ⟨s', hs', hid1⟩ := generate_matches_ids i _ p m hm
  obtain ⟨s0, hs0, helig, hid2⟩ := research_funding_sources_ids p i s' hs'
  have heq : s0 = s := db_source_id_inj s0 hs0 s hs (by rw [← hid2, ← hid1, hmid])
  rw [heq] at helig
  simp [hrej] at helig

/-- C4 witness: the Scottish Enterprise entry (geographically restricted to
Scotland) is rejected for a London profile and never surfaces in that
profile's recommendations. -/
theorem C4_witness :
    (funding_database.get ⟨8, by with_unfolding_all decide⟩).source_id ∉
      (generate_matches (analyze_business c9_profile)
        (research_funding_sources c9_profile (analyze_business c9_profile))
        c9_profile).map (·.source_id) :=
  C4_eligibility_monotonicity c9_profile (analyze_business c9_profile) _
    (List.get_mem funding_database 8 (by with_unfolding_all decide))
    (by with_unfolding_all decide)

end CapRec
